import Mathlib

/-!
Shallow embedding of the license-manager storage and analytics layer
(src/server/routes.ts, class DatabaseStorage) and its insert schema
(src/shared/schema.ts).

Modelling conventions:
* Database tables are Lean lists of records; `Db` carries the vendor and
  license tables plus a counter that stands in for `gen_random_uuid()`.
* Calendar dates and timestamps are integers (day numbers / instants);
  "now" and "today" are passed explicitly where the code calls
  `new Date()`.
* The `decimal(10,2)` cost column and JavaScript numeric arithmetic are
  modelled with exact rationals (`Rat`).  `jsRound` is JavaScript's
  `Math.round` (round half toward positive infinity); `pgRound2` is the
  2-fractional-digit rounding the decimal column applies (half away from
  zero).
* Nullable columns are `Option`s; SQL `col = v` on a NULL value is false,
  which the option matches encode.
* `ORDER BY created_at DESC` is modelled as a stable merge sort with the
  comparison taken from the query.
-/

namespace LicenseManager

/-- Row of the `vendors` table (src/shared/schema.ts). -/
structure Vendor where
  id : String
  name : String
  website : Option String
  contactEmail : Option String
  createdAt : Int
deriving DecidableEq

/-- Row of the `licenses` table (src/shared/schema.ts).  `usedSeats` and
`status` are nullable columns with defaults `0` and `"active"`. -/
structure License where
  id : String
  softwareName : String
  vendorId : String
  teamId : String
  licenseType : String
  totalSeats : Int
  usedSeats : Option Int
  cost : Rat
  billingFrequency : String
  purchaseDate : Int
  expiryDate : Option Int
  contactPerson : String
  description : Option String
  status : Option String
  createdAt : Int
  updatedAt : Int
deriving DecidableEq

/-- The persistent store: the two tables the claims touch, plus the id
generator state standing in for `gen_random_uuid()`. -/
structure Db where
  vendors : List Vendor
  licenses : List License
  nextId : Nat
deriving DecidableEq

/-- Fresh id production (models `gen_random_uuid()` deterministically). -/
def genId (n : Nat) : String := "id-" ++ toString n

/-- JavaScript `Math.round`: round half toward positive infinity. -/
def jsRound (x : Rat) : Int := (x + 1 / 2).floor

/-- Rounding of a numeric value to 2 fractional digits as the
`decimal(10,2)` column does on insert (half away from zero). -/
def pgRound2 (x : Rat) : Rat :=
  (if 0 ≤ x then (((x * 100 + 1 / 2).floor : Int) : Rat)
   else (-(((-(x * 100) + 1 / 2).floor : Int) : Rat))) / 100

/-- The `desc(licenses.createdAt)` comparison used by `orderBy`. -/
def createdDesc (a b : License) : Bool := decide (b.createdAt ≤ a.createdAt)

/-- `ORDER BY created_at DESC` as a stable sort of the table rows. -/
def orderByCreatedAtDesc (ls : List License) : List License :=
  ls.mergeSort createdDesc

/-- `DatabaseStorage.getAllLicenses`: all rows ordered by creation time
descending (src/server/routes.ts lines 270-272). -/
def getAllLicenses (db : Db) : List License :=
  orderByCreatedAtDesc db.licenses

/-- `DatabaseStorage.getOrCreateVendor` (src/server/routes.ts lines
262-268): look up by exact name, create with only the name populated
otherwise. -/
def getOrCreateVendor (db : Db) (now : Int) (name : String) : Vendor × Db :=
  match db.vendors.find? (fun v => v.name == name) with
  | some v => (v, db)
  | none =>
    let v := Vendor.mk (genId db.nextId) name none none now
    (v, Db.mk (db.vendors ++ [v]) db.licenses (db.nextId + 1))

/-- SQL `LIKE` pattern matching over characters: `%` matches any run
(every way of splitting the text is tried), `_` any single character,
anything else itself (used by `searchLicenses`, which wraps the search
text in `%...%`). -/
def likeMatch : List Char → List Char → Bool
  | [], t => t.isEmpty
  | c :: ps, t =>
    if c = '%' then t.tails.any (fun t' => likeMatch ps t')
    else if c = '_' then
      match t with
      | [] => false
      | _ :: ts => likeMatch ps ts
    else
      match t with
      | [] => false
      | d :: ts => c == d && likeMatch ps ts

/-- The optional filters of `searchLicenses`.  Absent query parameters are
`none`; the route passes raw query strings through, and the storage layer
skips a filter when its value is falsy (absent or the empty string). -/
structure Filters where
  search : Option String
  teamId : Option String
  vendorId : Option String
  status : Option String
deriving DecidableEq

/-- The `conditions` array built by `DatabaseStorage.searchLicenses`
(src/server/routes.ts lines 306-319): one predicate per truthy filter
field, in source order. -/
def searchConds (fs : Filters) : List (License → Bool) :=
  (match fs.search with
   | none => []
   | some s =>
     if s == "" then []
     else [fun l => likeMatch ("%" ++ s ++ "%").toList l.softwareName.toList]) ++
  (match fs.teamId with
   | none => []
   | some s => if s == "" then [] else [fun l => l.teamId == s]) ++
  (match fs.vendorId with
   | none => []
   | some s => if s == "" then [] else [fun l => l.vendorId == s]) ++
  (match fs.status with
   | none => []
   | some s => if s == "" then [] else [fun l => l.status == some s])

/-- `DatabaseStorage.searchLicenses` (src/server/routes.ts lines 300-324):
`WHERE and(...conditions)` (no conditions means no where clause), then
`ORDER BY created_at DESC`. -/
def searchLicenses (db : Db) (fs : Filters) : List License :=
  orderByCreatedAtDesc
    (db.licenses.filter (fun l => (searchConds fs).all (fun c => c l)))

/-- The row filter of `DatabaseStorage.getExpiringLicenses`
(src/server/routes.ts lines 330-341): expiry date inside
`[today, today + days]` (a NULL expiry date fails both SQL comparisons)
and status equal to `"active"`. -/
def expiringPred (today days : Int) (l : License) : Bool :=
  match l.expiryDate with
  | none => false
  | some d =>
    decide (d ≤ today + days) && decide (today ≤ d) && (l.status == some "active")

/-- `DatabaseStorage.getExpiringLicenses` (no `orderBy` in the query). -/
def getExpiringLicenses (db : Db) (today : Int) (days : Int) : List License :=
  db.licenses.filter (expiringPred today days)

set_option maxHeartbeats 4000000 in
/-- The Unicode default case-conversion data `String.prototype.toLowerCase`
applies: every code point whose lowercase mapping differs from itself,
with its mapping, transcribed from the Unicode character database (one
entry, U+0130, maps to two code points). -/
def lowerMap : List (Nat × List Nat) := [
    (65, [97]), (66, [98]), (67, [99]), (68, [100]), (69, [101]), (70, [102]), (71, [103]), (72, [104]),
    (73, [105]), (74, [106]), (75, [107]), (76, [108]), (77, [109]), (78, [110]), (79, [111]), (80, [112]),
    (81, [113]), (82, [114]), (83, [115]), (84, [116]), (85, [117]), (86, [118]), (87, [119]), (88, [120]),
    (89, [121]), (90, [122]), (192, [224]), (193, [225]), (194, [226]), (195, [227]), (196, [228]), (197, [229]),
    (198, [230]), (199, [231]), (200, [232]), (201, [233]), (202, [234]), (203, [235]), (204, [236]), (205, [237]),
    (206, [238]), (207, [239]), (208, [240]), (209, [241]), (210, [242]), (211, [243]), (212, [244]), (213, [245]),
    (214, [246]), (216, [248]), (217, [249]), (218, [250]), (219, [251]), (220, [252]), (221, [253]), (222, [254]),
    (256, [257]), (258, [259]), (260, [261]), (262, [263]), (264, [265]), (266, [267]), (268, [269]), (270, [271]),
    (272, [273]), (274, [275]), (276, [277]), (278, [279]), (280, [281]), (282, [283]), (284, [285]), (286, [287]),
    (288, [289]), (290, [291]), (292, [293]), (294, [295]), (296, [297]), (298, [299]), (300, [301]), (302, [303]),
    (304, [105, 775]), (306, [307]), (308, [309]), (310, [311]), (313, [314]), (315, [316]), (317, [318]), (319, [320]),
    (321, [322]), (323, [324]), (325, [326]), (327, [328]), (330, [331]), (332, [333]), (334, [335]), (336, [337]),
    (338, [339]), (340, [341]), (342, [343]), (344, [345]), (346, [347]), (348, [349]), (350, [351]), (352, [353]),
    (354, [355]), (356, [357]), (358, [359]), (360, [361]), (362, [363]), (364, [365]), (366, [367]), (368, [369]),
    (370, [371]), (372, [373]), (374, [375]), (376, [255]), (377, [378]), (379, [380]), (381, [382]), (385, [595]),
    (386, [387]), (388, [389]), (390, [596]), (391, [392]), (393, [598]), (394, [599]), (395, [396]), (398, [477]),
    (399, [601]), (400, [603]), (401, [402]), (403, [608]), (404, [611]), (406, [617]), (407, [616]), (408, [409]),
    (412, [623]), (413, [626]), (415, [629]), (416, [417]), (418, [419]), (420, [421]), (422, [640]), (423, [424]),
    (425, [643]), (428, [429]), (430, [648]), (431, [432]), (433, [650]), (434, [651]), (435, [436]), (437, [438]),
    (439, [658]), (440, [441]), (444, [445]), (452, [454]), (453, [454]), (455, [457]), (456, [457]), (458, [460]),
    (459, [460]), (461, [462]), (463, [464]), (465, [466]), (467, [468]), (469, [470]), (471, [472]), (473, [474]),
    (475, [476]), (478, [479]), (480, [481]), (482, [483]), (484, [485]), (486, [487]), (488, [489]), (490, [491]),
    (492, [493]), (494, [495]), (497, [499]), (498, [499]), (500, [501]), (502, [405]), (503, [447]), (504, [505]),
    (506, [507]), (508, [509]), (510, [511]), (512, [513]), (514, [515]), (516, [517]), (518, [519]), (520, [521]),
    (522, [523]), (524, [525]), (526, [527]), (528, [529]), (530, [531]), (532, [533]), (534, [535]), (536, [537]),
    (538, [539]), (540, [541]), (542, [543]), (544, [414]), (546, [547]), (548, [549]), (550, [551]), (552, [553]),
    (554, [555]), (556, [557]), (558, [559]), (560, [561]), (562, [563]), (570, [11365]), (571, [572]), (573, [410]),
    (574, [11366]), (577, [578]), (579, [384]), (580, [649]), (581, [652]), (582, [583]), (584, [585]), (586, [587]),
    (588, [589]), (590, [591]), (880, [881]), (882, [883]), (886, [887]), (895, [1011]), (902, [940]), (904, [941]),
    (905, [942]), (906, [943]), (908, [972]), (910, [973]), (911, [974]), (913, [945]), (914, [946]), (915, [947]),
    (916, [948]), (917, [949]), (918, [950]), (919, [951]), (920, [952]), (921, [953]), (922, [954]), (923, [955]),
    (924, [956]), (925, [957]), (926, [958]), (927, [959]), (928, [960]), (929, [961]), (931, [963]), (932, [964]),
    (933, [965]), (934, [966]), (935, [967]), (936, [968]), (937, [969]), (938, [970]), (939, [971]), (975, [983]),
    (984, [985]), (986, [987]), (988, [989]), (990, [991]), (992, [993]), (994, [995]), (996, [997]), (998, [999]),
    (1000, [1001]), (1002, [1003]), (1004, [1005]), (1006, [1007]), (1012, [952]), (1015, [1016]), (1017, [1010]), (1018, [1019]),
    (1021, [891]), (1022, [892]), (1023, [893]), (1024, [1104]), (1025, [1105]), (1026, [1106]), (1027, [1107]), (1028, [1108]),
    (1029, [1109]), (1030, [1110]), (1031, [1111]), (1032, [1112]), (1033, [1113]), (1034, [1114]), (1035, [1115]), (1036, [1116]),
    (1037, [1117]), (1038, [1118]), (1039, [1119]), (1040, [1072]), (1041, [1073]), (1042, [1074]), (1043, [1075]), (1044, [1076]),
    (1045, [1077]), (1046, [1078]), (1047, [1079]), (1048, [1080]), (1049, [1081]), (1050, [1082]), (1051, [1083]), (1052, [1084]),
    (1053, [1085]), (1054, [1086]), (1055, [1087]), (1056, [1088]), (1057, [1089]), (1058, [1090]), (1059, [1091]), (1060, [1092]),
    (1061, [1093]), (1062, [1094]), (1063, [1095]), (1064, [1096]), (1065, [1097]), (1066, [1098]), (1067, [1099]), (1068, [1100]),
    (1069, [1101]), (1070, [1102]), (1071, [1103]), (1120, [1121]), (1122, [1123]), (1124, [1125]), (1126, [1127]), (1128, [1129]),
    (1130, [1131]), (1132, [1133]), (1134, [1135]), (1136, [1137]), (1138, [1139]), (1140, [1141]), (1142, [1143]), (1144, [1145]),
    (1146, [1147]), (1148, [1149]), (1150, [1151]), (1152, [1153]), (1162, [1163]), (1164, [1165]), (1166, [1167]), (1168, [1169]),
    (1170, [1171]), (1172, [1173]), (1174, [1175]), (1176, [1177]), (1178, [1179]), (1180, [1181]), (1182, [1183]), (1184, [1185]),
    (1186, [1187]), (1188, [1189]), (1190, [1191]), (1192, [1193]), (1194, [1195]), (1196, [1197]), (1198, [1199]), (1200, [1201]),
    (1202, [1203]), (1204, [1205]), (1206, [1207]), (1208, [1209]), (1210, [1211]), (1212, [1213]), (1214, [1215]), (1216, [1231]),
    (1217, [1218]), (1219, [1220]), (1221, [1222]), (1223, [1224]), (1225, [1226]), (1227, [1228]), (1229, [1230]), (1232, [1233]),
    (1234, [1235]), (1236, [1237]), (1238, [1239]), (1240, [1241]), (1242, [1243]), (1244, [1245]), (1246, [1247]), (1248, [1249]),
    (1250, [1251]), (1252, [1253]), (1254, [1255]), (1256, [1257]), (1258, [1259]), (1260, [1261]), (1262, [1263]), (1264, [1265]),
    (1266, [1267]), (1268, [1269]), (1270, [1271]), (1272, [1273]), (1274, [1275]), (1276, [1277]), (1278, [1279]), (1280, [1281]),
    (1282, [1283]), (1284, [1285]), (1286, [1287]), (1288, [1289]), (1290, [1291]), (1292, [1293]), (1294, [1295]), (1296, [1297]),
    (1298, [1299]), (1300, [1301]), (1302, [1303]), (1304, [1305]), (1306, [1307]), (1308, [1309]), (1310, [1311]), (1312, [1313]),
    (1314, [1315]), (1316, [1317]), (1318, [1319]), (1320, [1321]), (1322, [1323]), (1324, [1325]), (1326, [1327]), (1329, [1377]),
    (1330, [1378]), (1331, [1379]), (1332, [1380]), (1333, [1381]), (1334, [1382]), (1335, [1383]), (1336, [1384]), (1337, [1385]),
    (1338, [1386]), (1339, [1387]), (1340, [1388]), (1341, [1389]), (1342, [1390]), (1343, [1391]), (1344, [1392]), (1345, [1393]),
    (1346, [1394]), (1347, [1395]), (1348, [1396]), (1349, [1397]), (1350, [1398]), (1351, [1399]), (1352, [1400]), (1353, [1401]),
    (1354, [1402]), (1355, [1403]), (1356, [1404]), (1357, [1405]), (1358, [1406]), (1359, [1407]), (1360, [1408]), (1361, [1409]),
    (1362, [1410]), (1363, [1411]), (1364, [1412]), (1365, [1413]), (1366, [1414]), (4256, [11520]), (4257, [11521]), (4258, [11522]),
    (4259, [11523]), (4260, [11524]), (4261, [11525]), (4262, [11526]), (4263, [11527]), (4264, [11528]), (4265, [11529]), (4266, [11530]),
    (4267, [11531]), (4268, [11532]), (4269, [11533]), (4270, [11534]), (4271, [11535]), (4272, [11536]), (4273, [11537]), (4274, [11538]),
    (4275, [11539]), (4276, [11540]), (4277, [11541]), (4278, [11542]), (4279, [11543]), (4280, [11544]), (4281, [11545]), (4282, [11546]),
    (4283, [11547]), (4284, [11548]), (4285, [11549]), (4286, [11550]), (4287, [11551]), (4288, [11552]), (4289, [11553]), (4290, [11554]),
    (4291, [11555]), (4292, [11556]), (4293, [11557]), (4295, [11559]), (4301, [11565]), (5024, [43888]), (5025, [43889]), (5026, [43890]),
    (5027, [43891]), (5028, [43892]), (5029, [43893]), (5030, [43894]), (5031, [43895]), (5032, [43896]), (5033, [43897]), (5034, [43898]),
    (5035, [43899]), (5036, [43900]), (5037, [43901]), (5038, [43902]), (5039, [43903]), (5040, [43904]), (5041, [43905]), (5042, [43906]),
    (5043, [43907]), (5044, [43908]), (5045, [43909]), (5046, [43910]), (5047, [43911]), (5048, [43912]), (5049, [43913]), (5050, [43914]),
    (5051, [43915]), (5052, [43916]), (5053, [43917]), (5054, [43918]), (5055, [43919]), (5056, [43920]), (5057, [43921]), (5058, [43922]),
    (5059, [43923]), (5060, [43924]), (5061, [43925]), (5062, [43926]), (5063, [43927]), (5064, [43928]), (5065, [43929]), (5066, [43930]),
    (5067, [43931]), (5068, [43932]), (5069, [43933]), (5070, [43934]), (5071, [43935]), (5072, [43936]), (5073, [43937]), (5074, [43938]),
    (5075, [43939]), (5076, [43940]), (5077, [43941]), (5078, [43942]), (5079, [43943]), (5080, [43944]), (5081, [43945]), (5082, [43946]),
    (5083, [43947]), (5084, [43948]), (5085, [43949]), (5086, [43950]), (5087, [43951]), (5088, [43952]), (5089, [43953]), (5090, [43954]),
    (5091, [43955]), (5092, [43956]), (5093, [43957]), (5094, [43958]), (5095, [43959]), (5096, [43960]), (5097, [43961]), (5098, [43962]),
    (5099, [43963]), (5100, [43964]), (5101, [43965]), (5102, [43966]), (5103, [43967]), (5104, [5112]), (5105, [5113]), (5106, [5114]),
    (5107, [5115]), (5108, [5116]), (5109, [5117]), (7312, [4304]), (7313, [4305]), (7314, [4306]), (7315, [4307]), (7316, [4308]),
    (7317, [4309]), (7318, [4310]), (7319, [4311]), (7320, [4312]), (7321, [4313]), (7322, [4314]), (7323, [4315]), (7324, [4316]),
    (7325, [4317]), (7326, [4318]), (7327, [4319]), (7328, [4320]), (7329, [4321]), (7330, [4322]), (7331, [4323]), (7332, [4324]),
    (7333, [4325]), (7334, [4326]), (7335, [4327]), (7336, [4328]), (7337, [4329]), (7338, [4330]), (7339, [4331]), (7340, [4332]),
    (7341, [4333]), (7342, [4334]), (7343, [4335]), (7344, [4336]), (7345, [4337]), (7346, [4338]), (7347, [4339]), (7348, [4340]),
    (7349, [4341]), (7350, [4342]), (7351, [4343]), (7352, [4344]), (7353, [4345]), (7354, [4346]), (7357, [4349]), (7358, [4350]),
    (7359, [4351]), (7680, [7681]), (7682, [7683]), (7684, [7685]), (7686, [7687]), (7688, [7689]), (7690, [7691]), (7692, [7693]),
    (7694, [7695]), (7696, [7697]), (7698, [7699]), (7700, [7701]), (7702, [7703]), (7704, [7705]), (7706, [7707]), (7708, [7709]),
    (7710, [7711]), (7712, [7713]), (7714, [7715]), (7716, [7717]), (7718, [7719]), (7720, [7721]), (7722, [7723]), (7724, [7725]),
    (7726, [7727]), (7728, [7729]), (7730, [7731]), (7732, [7733]), (7734, [7735]), (7736, [7737]), (7738, [7739]), (7740, [7741]),
    (7742, [7743]), (7744, [7745]), (7746, [7747]), (7748, [7749]), (7750, [7751]), (7752, [7753]), (7754, [7755]), (7756, [7757]),
    (7758, [7759]), (7760, [7761]), (7762, [7763]), (7764, [7765]), (7766, [7767]), (7768, [7769]), (7770, [7771]), (7772, [7773]),
    (7774, [7775]), (7776, [7777]), (7778, [7779]), (7780, [7781]), (7782, [7783]), (7784, [7785]), (7786, [7787]), (7788, [7789]),
    (7790, [7791]), (7792, [7793]), (7794, [7795]), (7796, [7797]), (7798, [7799]), (7800, [7801]), (7802, [7803]), (7804, [7805]),
    (7806, [7807]), (7808, [7809]), (7810, [7811]), (7812, [7813]), (7814, [7815]), (7816, [7817]), (7818, [7819]), (7820, [7821]),
    (7822, [7823]), (7824, [7825]), (7826, [7827]), (7828, [7829]), (7838, [223]), (7840, [7841]), (7842, [7843]), (7844, [7845]),
    (7846, [7847]), (7848, [7849]), (7850, [7851]), (7852, [7853]), (7854, [7855]), (7856, [7857]), (7858, [7859]), (7860, [7861]),
    (7862, [7863]), (7864, [7865]), (7866, [7867]), (7868, [7869]), (7870, [7871]), (7872, [7873]), (7874, [7875]), (7876, [7877]),
    (7878, [7879]), (7880, [7881]), (7882, [7883]), (7884, [7885]), (7886, [7887]), (7888, [7889]), (7890, [7891]), (7892, [7893]),
    (7894, [7895]), (7896, [7897]), (7898, [7899]), (7900, [7901]), (7902, [7903]), (7904, [7905]), (7906, [7907]), (7908, [7909]),
    (7910, [7911]), (7912, [7913]), (7914, [7915]), (7916, [7917]), (7918, [7919]), (7920, [7921]), (7922, [7923]), (7924, [7925]),
    (7926, [7927]), (7928, [7929]), (7930, [7931]), (7932, [7933]), (7934, [7935]), (7944, [7936]), (7945, [7937]), (7946, [7938]),
    (7947, [7939]), (7948, [7940]), (7949, [7941]), (7950, [7942]), (7951, [7943]), (7960, [7952]), (7961, [7953]), (7962, [7954]),
    (7963, [7955]), (7964, [7956]), (7965, [7957]), (7976, [7968]), (7977, [7969]), (7978, [7970]), (7979, [7971]), (7980, [7972]),
    (7981, [7973]), (7982, [7974]), (7983, [7975]), (7992, [7984]), (7993, [7985]), (7994, [7986]), (7995, [7987]), (7996, [7988]),
    (7997, [7989]), (7998, [7990]), (7999, [7991]), (8008, [8000]), (8009, [8001]), (8010, [8002]), (8011, [8003]), (8012, [8004]),
    (8013, [8005]), (8025, [8017]), (8027, [8019]), (8029, [8021]), (8031, [8023]), (8040, [8032]), (8041, [8033]), (8042, [8034]),
    (8043, [8035]), (8044, [8036]), (8045, [8037]), (8046, [8038]), (8047, [8039]), (8072, [8064]), (8073, [8065]), (8074, [8066]),
    (8075, [8067]), (8076, [8068]), (8077, [8069]), (8078, [8070]), (8079, [8071]), (8088, [8080]), (8089, [8081]), (8090, [8082]),
    (8091, [8083]), (8092, [8084]), (8093, [8085]), (8094, [8086]), (8095, [8087]), (8104, [8096]), (8105, [8097]), (8106, [8098]),
    (8107, [8099]), (8108, [8100]), (8109, [8101]), (8110, [8102]), (8111, [8103]), (8120, [8112]), (8121, [8113]), (8122, [8048]),
    (8123, [8049]), (8124, [8115]), (8136, [8050]), (8137, [8051]), (8138, [8052]), (8139, [8053]), (8140, [8131]), (8152, [8144]),
    (8153, [8145]), (8154, [8054]), (8155, [8055]), (8168, [8160]), (8169, [8161]), (8170, [8058]), (8171, [8059]), (8172, [8165]),
    (8184, [8056]), (8185, [8057]), (8186, [8060]), (8187, [8061]), (8188, [8179]), (8486, [969]), (8490, [107]), (8491, [229]),
    (8498, [8526]), (8544, [8560]), (8545, [8561]), (8546, [8562]), (8547, [8563]), (8548, [8564]), (8549, [8565]), (8550, [8566]),
    (8551, [8567]), (8552, [8568]), (8553, [8569]), (8554, [8570]), (8555, [8571]), (8556, [8572]), (8557, [8573]), (8558, [8574]),
    (8559, [8575]), (8579, [8580]), (9398, [9424]), (9399, [9425]), (9400, [9426]), (9401, [9427]), (9402, [9428]), (9403, [9429]),
    (9404, [9430]), (9405, [9431]), (9406, [9432]), (9407, [9433]), (9408, [9434]), (9409, [9435]), (9410, [9436]), (9411, [9437]),
    (9412, [9438]), (9413, [9439]), (9414, [9440]), (9415, [9441]), (9416, [9442]), (9417, [9443]), (9418, [9444]), (9419, [9445]),
    (9420, [9446]), (9421, [9447]), (9422, [9448]), (9423, [9449]), (11264, [11312]), (11265, [11313]), (11266, [11314]), (11267, [11315]),
    (11268, [11316]), (11269, [11317]), (11270, [11318]), (11271, [11319]), (11272, [11320]), (11273, [11321]), (11274, [11322]), (11275, [11323]),
    (11276, [11324]), (11277, [11325]), (11278, [11326]), (11279, [11327]), (11280, [11328]), (11281, [11329]), (11282, [11330]), (11283, [11331]),
    (11284, [11332]), (11285, [11333]), (11286, [11334]), (11287, [11335]), (11288, [11336]), (11289, [11337]), (11290, [11338]), (11291, [11339]),
    (11292, [11340]), (11293, [11341]), (11294, [11342]), (11295, [11343]), (11296, [11344]), (11297, [11345]), (11298, [11346]), (11299, [11347]),
    (11300, [11348]), (11301, [11349]), (11302, [11350]), (11303, [11351]), (11304, [11352]), (11305, [11353]), (11306, [11354]), (11307, [11355]),
    (11308, [11356]), (11309, [11357]), (11310, [11358]), (11311, [11359]), (11360, [11361]), (11362, [619]), (11363, [7549]), (11364, [637]),
    (11367, [11368]), (11369, [11370]), (11371, [11372]), (11373, [593]), (11374, [625]), (11375, [592]), (11376, [594]), (11378, [11379]),
    (11381, [11382]), (11390, [575]), (11391, [576]), (11392, [11393]), (11394, [11395]), (11396, [11397]), (11398, [11399]), (11400, [11401]),
    (11402, [11403]), (11404, [11405]), (11406, [11407]), (11408, [11409]), (11410, [11411]), (11412, [11413]), (11414, [11415]), (11416, [11417]),
    (11418, [11419]), (11420, [11421]), (11422, [11423]), (11424, [11425]), (11426, [11427]), (11428, [11429]), (11430, [11431]), (11432, [11433]),
    (11434, [11435]), (11436, [11437]), (11438, [11439]), (11440, [11441]), (11442, [11443]), (11444, [11445]), (11446, [11447]), (11448, [11449]),
    (11450, [11451]), (11452, [11453]), (11454, [11455]), (11456, [11457]), (11458, [11459]), (11460, [11461]), (11462, [11463]), (11464, [11465]),
    (11466, [11467]), (11468, [11469]), (11470, [11471]), (11472, [11473]), (11474, [11475]), (11476, [11477]), (11478, [11479]), (11480, [11481]),
    (11482, [11483]), (11484, [11485]), (11486, [11487]), (11488, [11489]), (11490, [11491]), (11499, [11500]), (11501, [11502]), (11506, [11507]),
    (42560, [42561]), (42562, [42563]), (42564, [42565]), (42566, [42567]), (42568, [42569]), (42570, [42571]), (42572, [42573]), (42574, [42575]),
    (42576, [42577]), (42578, [42579]), (42580, [42581]), (42582, [42583]), (42584, [42585]), (42586, [42587]), (42588, [42589]), (42590, [42591]),
    (42592, [42593]), (42594, [42595]), (42596, [42597]), (42598, [42599]), (42600, [42601]), (42602, [42603]), (42604, [42605]), (42624, [42625]),
    (42626, [42627]), (42628, [42629]), (42630, [42631]), (42632, [42633]), (42634, [42635]), (42636, [42637]), (42638, [42639]), (42640, [42641]),
    (42642, [42643]), (42644, [42645]), (42646, [42647]), (42648, [42649]), (42650, [42651]), (42786, [42787]), (42788, [42789]), (42790, [42791]),
    (42792, [42793]), (42794, [42795]), (42796, [42797]), (42798, [42799]), (42802, [42803]), (42804, [42805]), (42806, [42807]), (42808, [42809]),
    (42810, [42811]), (42812, [42813]), (42814, [42815]), (42816, [42817]), (42818, [42819]), (42820, [42821]), (42822, [42823]), (42824, [42825]),
    (42826, [42827]), (42828, [42829]), (42830, [42831]), (42832, [42833]), (42834, [42835]), (42836, [42837]), (42838, [42839]), (42840, [42841]),
    (42842, [42843]), (42844, [42845]), (42846, [42847]), (42848, [42849]), (42850, [42851]), (42852, [42853]), (42854, [42855]), (42856, [42857]),
    (42858, [42859]), (42860, [42861]), (42862, [42863]), (42873, [42874]), (42875, [42876]), (42877, [7545]), (42878, [42879]), (42880, [42881]),
    (42882, [42883]), (42884, [42885]), (42886, [42887]), (42891, [42892]), (42893, [613]), (42896, [42897]), (42898, [42899]), (42902, [42903]),
    (42904, [42905]), (42906, [42907]), (42908, [42909]), (42910, [42911]), (42912, [42913]), (42914, [42915]), (42916, [42917]), (42918, [42919]),
    (42920, [42921]), (42922, [614]), (42923, [604]), (42924, [609]), (42925, [620]), (42926, [618]), (42928, [670]), (42929, [647]),
    (42930, [669]), (42931, [43859]), (42932, [42933]), (42934, [42935]), (42936, [42937]), (42938, [42939]), (42940, [42941]), (42942, [42943]),
    (42944, [42945]), (42946, [42947]), (42948, [42900]), (42949, [642]), (42950, [7566]), (42951, [42952]), (42953, [42954]), (42960, [42961]),
    (42966, [42967]), (42968, [42969]), (42997, [42998]), (65313, [65345]), (65314, [65346]), (65315, [65347]), (65316, [65348]), (65317, [65349]),
    (65318, [65350]), (65319, [65351]), (65320, [65352]), (65321, [65353]), (65322, [65354]), (65323, [65355]), (65324, [65356]), (65325, [65357]),
    (65326, [65358]), (65327, [65359]), (65328, [65360]), (65329, [65361]), (65330, [65362]), (65331, [65363]), (65332, [65364]), (65333, [65365]),
    (65334, [65366]), (65335, [65367]), (65336, [65368]), (65337, [65369]), (65338, [65370]), (66560, [66600]), (66561, [66601]), (66562, [66602]),
    (66563, [66603]), (66564, [66604]), (66565, [66605]), (66566, [66606]), (66567, [66607]), (66568, [66608]), (66569, [66609]), (66570, [66610]),
    (66571, [66611]), (66572, [66612]), (66573, [66613]), (66574, [66614]), (66575, [66615]), (66576, [66616]), (66577, [66617]), (66578, [66618]),
    (66579, [66619]), (66580, [66620]), (66581, [66621]), (66582, [66622]), (66583, [66623]), (66584, [66624]), (66585, [66625]), (66586, [66626]),
    (66587, [66627]), (66588, [66628]), (66589, [66629]), (66590, [66630]), (66591, [66631]), (66592, [66632]), (66593, [66633]), (66594, [66634]),
    (66595, [66635]), (66596, [66636]), (66597, [66637]), (66598, [66638]), (66599, [66639]), (66736, [66776]), (66737, [66777]), (66738, [66778]),
    (66739, [66779]), (66740, [66780]), (66741, [66781]), (66742, [66782]), (66743, [66783]), (66744, [66784]), (66745, [66785]), (66746, [66786]),
    (66747, [66787]), (66748, [66788]), (66749, [66789]), (66750, [66790]), (66751, [66791]), (66752, [66792]), (66753, [66793]), (66754, [66794]),
    (66755, [66795]), (66756, [66796]), (66757, [66797]), (66758, [66798]), (66759, [66799]), (66760, [66800]), (66761, [66801]), (66762, [66802]),
    (66763, [66803]), (66764, [66804]), (66765, [66805]), (66766, [66806]), (66767, [66807]), (66768, [66808]), (66769, [66809]), (66770, [66810]),
    (66771, [66811]), (66928, [66967]), (66929, [66968]), (66930, [66969]), (66931, [66970]), (66932, [66971]), (66933, [66972]), (66934, [66973]),
    (66935, [66974]), (66936, [66975]), (66937, [66976]), (66938, [66977]), (66940, [66979]), (66941, [66980]), (66942, [66981]), (66943, [66982]),
    (66944, [66983]), (66945, [66984]), (66946, [66985]), (66947, [66986]), (66948, [66987]), (66949, [66988]), (66950, [66989]), (66951, [66990]),
    (66952, [66991]), (66953, [66992]), (66954, [66993]), (66956, [66995]), (66957, [66996]), (66958, [66997]), (66959, [66998]), (66960, [66999]),
    (66961, [67000]), (66962, [67001]), (66964, [67003]), (66965, [67004]), (68736, [68800]), (68737, [68801]), (68738, [68802]), (68739, [68803]),
    (68740, [68804]), (68741, [68805]), (68742, [68806]), (68743, [68807]), (68744, [68808]), (68745, [68809]), (68746, [68810]), (68747, [68811]),
    (68748, [68812]), (68749, [68813]), (68750, [68814]), (68751, [68815]), (68752, [68816]), (68753, [68817]), (68754, [68818]), (68755, [68819]),
    (68756, [68820]), (68757, [68821]), (68758, [68822]), (68759, [68823]), (68760, [68824]), (68761, [68825]), (68762, [68826]), (68763, [68827]),
    (68764, [68828]), (68765, [68829]), (68766, [68830]), (68767, [68831]), (68768, [68832]), (68769, [68833]), (68770, [68834]), (68771, [68835]),
    (68772, [68836]), (68773, [68837]), (68774, [68838]), (68775, [68839]), (68776, [68840]), (68777, [68841]), (68778, [68842]), (68779, [68843]),
    (68780, [68844]), (68781, [68845]), (68782, [68846]), (68783, [68847]), (68784, [68848]), (68785, [68849]), (68786, [68850]), (71840, [71872]),
    (71841, [71873]), (71842, [71874]), (71843, [71875]), (71844, [71876]), (71845, [71877]), (71846, [71878]), (71847, [71879]), (71848, [71880]),
    (71849, [71881]), (71850, [71882]), (71851, [71883]), (71852, [71884]), (71853, [71885]), (71854, [71886]), (71855, [71887]), (71856, [71888]),
    (71857, [71889]), (71858, [71890]), (71859, [71891]), (71860, [71892]), (71861, [71893]), (71862, [71894]), (71863, [71895]), (71864, [71896]),
    (71865, [71897]), (71866, [71898]), (71867, [71899]), (71868, [71900]), (71869, [71901]), (71870, [71902]), (71871, [71903]), (93760, [93792]),
    (93761, [93793]), (93762, [93794]), (93763, [93795]), (93764, [93796]), (93765, [93797]), (93766, [93798]), (93767, [93799]), (93768, [93800]),
    (93769, [93801]), (93770, [93802]), (93771, [93803]), (93772, [93804]), (93773, [93805]), (93774, [93806]), (93775, [93807]), (93776, [93808]),
    (93777, [93809]), (93778, [93810]), (93779, [93811]), (93780, [93812]), (93781, [93813]), (93782, [93814]), (93783, [93815]), (93784, [93816]),
    (93785, [93817]), (93786, [93818]), (93787, [93819]), (93788, [93820]), (93789, [93821]), (93790, [93822]), (93791, [93823]), (125184, [125218]),
    (125185, [125219]), (125186, [125220]), (125187, [125221]), (125188, [125222]), (125189, [125223]), (125190, [125224]), (125191, [125225]), (125192, [125226]),
    (125193, [125227]), (125194, [125228]), (125195, [125229]), (125196, [125230]), (125197, [125231]), (125198, [125232]), (125199, [125233]), (125200, [125234]),
    (125201, [125235]), (125202, [125236]), (125203, [125237]), (125204, [125238]), (125205, [125239]), (125206, [125240]), (125207, [125241]), (125208, [125242]),
    (125209, [125243]), (125210, [125244]), (125211, [125245]), (125212, [125246]), (125213, [125247]), (125214, [125248]), (125215, [125249]), (125216, [125250]),
    (125217, [125251])]

/-- Per-character conversion of JavaScript
`String.prototype.toLowerCase` (Unicode default case conversion; the one
context-sensitive rule of the conversion, final sigma, is not
modelled). -/
def jsCharLower (c : Char) : List Char :=
  match lowerMap.find? (fun e => e.1 == c.toNat) with
  | some e => e.2.map Char.ofNat
  | none => [c]

/-- JavaScript `String.prototype.toLowerCase`. -/
def jsToLower (s : String) : String := String.mk (s.data.flatMap jsCharLower)

/-- Digit run to number. -/
def digitsVal (cs : List Char) : Nat :=
  cs.foldl (fun n c => 10 * n + (c.toNat - 48)) 0

/-- Lower-cased software name, the grouping key of
`getDuplicateLicenses`. -/
def lowerKey (l : License) : String := jsToLower l.softwareName

/-- One step of the `reduce` in `getDuplicateLicenses`: push the license
onto the entry for its key, creating the entry at the end on first sight
(JavaScript object insertion order). -/
def addToGroups (acc : List (String × List License)) (k : String) (x : License) :
    List (String × List License) :=
  match acc with
  | [] => [(k, [x])]
  | (k', ls) :: rest =>
    if k' == k then (k', ls ++ [x]) :: rest else (k', ls) :: addToGroups rest k x

/-- The `reduce` of `getDuplicateLicenses` (src/server/routes.ts lines
345-352), grouping all licenses by lower-cased software name. -/
def groupBySoftware (ls : List License) : List (String × List License) :=
  ls.foldl (fun acc l => addToGroups acc (lowerKey l) l) []

/-- A canonical array-index property key of an ECMAScript object: a
nonempty digit run with no leading zero (except `"0"` itself) whose
numeric value is below 2^32 - 1.  `Object.entries` enumerates such keys
first, in ascending numeric order, before the other string keys in
insertion order. -/
def isArrayIndexKey (s : String) : Bool :=
  (!s.data.isEmpty) && s.data.all (fun c => c.isDigit) &&
  (s == "0" || !(s.data.head? == some '0')) &&
  decide (digitsVal s.data < 4294967295)

/-- The comparison `Object.entries` order uses between two array-index
keyed entries: ascending numeric value. -/
def keyNumLe (a b : String × List License) : Bool :=
  decide (digitsVal a.1.data ≤ digitsVal b.1.data)

/-- `Object.entries` enumeration order on the object the grouping
`reduce` builds: canonical array-index keys first in ascending numeric
order, then the remaining keys in insertion order. -/
def jsObjectEntries (assoc : List (String × List License)) :
    List (String × List License) :=
  (assoc.filter (fun e => isArrayIndexKey e.1)).mergeSort keyNumLe ++
  assoc.filter (fun e => !isArrayIndexKey e.1)

/-- `DatabaseStorage.getDuplicateLicenses` (src/server/routes.ts lines
343-357): enumerate the groups in `Object.entries` order and keep those
with two or more members; each group's name is the lower-cased key. -/
def getDuplicateLicenses (db : Db) : List (String × List License) :=
  (jsObjectEntries (groupBySoftware (getAllLicenses db))).filter (fun g => 1 < g.2.length)

/-- One step of the `reduce` computing `monthlyCost` in
`getLicenseMetrics` (src/server/routes.ts lines 371-383). -/
def monthlyStep (total : Rat) (l : License) : Rat :=
  match l.billingFrequency with
  | "monthly" => total + l.cost
  | "quarterly" => total + l.cost / 3
  | "annually" => total + l.cost / 12
  | _ => total

/-- The metrics record returned by `getLicenseMetrics`. -/
structure Metrics where
  totalLicenses : Nat
  monthlyCost : Int
  expiringSoon : Nat
  utilizationRate : Int
deriving DecidableEq

/-- Seat total `reduce` of `getLicenseMetrics` (line 385). -/
def sumTotalSeatsFold (ls : List License) : Int :=
  ls.foldl (fun t l => t + l.totalSeats) 0

/-- Used seat `reduce` of `getLicenseMetrics` (line 386); a null
`usedSeats` counts as 0 (`license.usedSeats || 0`). -/
def sumUsedSeatsFold (ls : List License) : Int :=
  ls.foldl (fun t l => t + l.usedSeats.getD 0) 0

/-- `DatabaseStorage.getLicenseMetrics` (src/server/routes.ts lines
359-395). -/
def getLicenseMetrics (db : Db) (today : Int) : Metrics :=
  let allLicenses := getAllLicenses db
  let expiring := getExpiringLicenses db today 30
  Metrics.mk
    allLicenses.length
    (jsRound (allLicenses.foldl monthlyStep 0))
    expiring.length
    (if 0 < sumTotalSeatsFold allLicenses
     then jsRound ((sumUsedSeatsFold allLicenses : Rat) / (sumTotalSeatsFold allLicenses : Rat) * 100)
     else 0)

/-- `Partial<License>` as accepted by `updateLicense`: any subset of the
row's columns. -/
structure LicensePatch where
  id : Option String
  softwareName : Option String
  vendorId : Option String
  teamId : Option String
  licenseType : Option String
  totalSeats : Option Int
  usedSeats : Option (Option Int)
  cost : Option Rat
  billingFrequency : Option String
  purchaseDate : Option Int
  expiryDate : Option (Option Int)
  contactPerson : Option String
  description : Option (Option String)
  status : Option (Option String)
  createdAt : Option Int
  updatedAt : Option Int
deriving DecidableEq

/-- The patch supplying no field at all. -/
def emptyPatch : LicensePatch :=
  LicensePatch.mk none none none none none none none none none none none none none none none none

/-- `set({ ...license, updatedAt: new Date() })`: every supplied field
overrides the row, and `updatedAt` is always set to now (even when the
patch carries its own `updatedAt`, since the spread precedes it). -/
def applyPatch (l : License) (p : LicensePatch) (now : Int) : License :=
  License.mk
    (p.id.getD l.id)
    (p.softwareName.getD l.softwareName)
    (p.vendorId.getD l.vendorId)
    (p.teamId.getD l.teamId)
    (p.licenseType.getD l.licenseType)
    (p.totalSeats.getD l.totalSeats)
    (p.usedSeats.getD l.usedSeats)
    (p.cost.getD l.cost)
    (p.billingFrequency.getD l.billingFrequency)
    (p.purchaseDate.getD l.purchaseDate)
    (p.expiryDate.getD l.expiryDate)
    (p.contactPerson.getD l.contactPerson)
    (p.description.getD l.description)
    (p.status.getD l.status)
    (p.createdAt.getD l.createdAt)
    now

/-- A copy of the row with only the updated timestamp changed. -/
def setUpdatedAt (l : License) (now : Int) : License :=
  License.mk l.id l.softwareName l.vendorId l.teamId l.licenseType l.totalSeats
    l.usedSeats l.cost l.billingFrequency l.purchaseDate l.expiryDate
    l.contactPerson l.description l.status l.createdAt now

/-- `DatabaseStorage.updateLicense` (src/server/routes.ts lines 287-294):
`UPDATE ... WHERE id = $1 RETURNING *` patches every matching row; the
code destructures the first returned row, which is `undefined` (`none`)
when no row matched — no error is raised. -/
def updateLicense (db : Db) (now : Int) (id : String) (p : LicensePatch) :
    Option License × Db :=
  let returned := (db.licenses.filter (fun l => l.id == id)).map (fun l => applyPatch l p now)
  let newRows := db.licenses.map (fun l => if l.id == id then applyPatch l p now else l)
  (returned.head?, Db.mk db.vendors newRows db.nextId)

/-- JavaScript `parseInt` restricted to base 10: skip leading whitespace,
optional sign, then the longest leading digit run; `none` models `NaN`
(the hexadecimal `0x` form is not modelled — no claim depends on it). -/
def jsParseInt (s : String) : Option Int :=
  let cs := s.toList.dropWhile (fun c => c.isWhitespace)
  let signAndRest : Int × List Char :=
    match cs with
    | '-' :: r => (-1, r)
    | '+' :: r => (1, r)
    | _ => (1, cs)
  let ds := signAndRest.2.takeWhile (fun c => c.isDigit)
  if ds.isEmpty then none else some (signAndRest.1 * (digitsVal ds : Int))

/-- JavaScript `parseFloat` restricted to plain decimal notation:
sign, integer digits, optional fraction; `none` models `NaN`.  The
binary-float rounding of the real `parseFloat` is NOT modelled (see the
discussion of the cost round-trip claim). -/
def jsParseFloat (s : String) : Option Rat :=
  let cs := s.toList.dropWhile (fun c => c.isWhitespace)
  let signAndRest : Rat × List Char :=
    match cs with
    | '-' :: r => (-1, r)
    | '+' :: r => (1, r)
    | _ => (1, cs)
  let intPart := signAndRest.2.takeWhile (fun c => c.isDigit)
  let rest := signAndRest.2.dropWhile (fun c => c.isDigit)
  let fracPart :=
    match rest with
    | '.' :: r => r.takeWhile (fun c => c.isDigit)
    | _ => []
  if intPart.isEmpty && fracPart.isEmpty then none
  else
    some (signAndRest.1 *
      ((digitsVal intPart : Rat) + (digitsVal fracPart : Rat) / ((10 : Rat) ^ fracPart.length)))

/-- `const days = parseInt(req.query.days as string) || 30` at
GET /api/analytics/expiring (src/server/routes.ts line 150): an absent
parameter parses to `NaN`, and both `NaN` and `0` are falsy. -/
def expiringDaysParam (q : Option String) : Int :=
  match q with
  | none => 30
  | some s =>
    match jsParseInt s with
    | none => 30
    | some v => if v = 0 then 30 else v

/-- The GET /api/analytics/expiring route body (src/server/routes.ts
lines 148-156). -/
def expiringRoute (db : Db) (today : Int) (q : Option String) : List License :=
  getExpiringLicenses db today (expiringDaysParam q)

/-- The client body of POST /api/licenses.  `cost` and `totalSeats`
arrive as strings; `status` and `usedSeats` may be sent but are omitted
from the insert schema; `vendorName` is read from the raw body for
`getOrCreateVendor`. -/
structure LicensePayload where
  softwareName : String
  vendorName : String
  vendorId : String
  teamId : String
  licenseType : String
  totalSeats : String
  cost : String
  billingFrequency : String
  purchaseDate : Int
  expiryDate : Option Int
  contactPerson : String
  description : Option String
  status : Option String
  usedSeats : Option Int
deriving DecidableEq

/-- The parse result of `insertLicenseSchema` (src/shared/schema.ts lines
77-86): `id`, `createdAt`, `updatedAt`, `status` and `usedSeats` omitted,
`cost` and `totalSeats` transformed from strings. -/
structure InsertLicense where
  softwareName : String
  vendorId : String
  teamId : String
  licenseType : String
  totalSeats : Int
  cost : Rat
  billingFrequency : String
  purchaseDate : Int
  expiryDate : Option Int
  contactPerson : String
  description : Option String
deriving DecidableEq

/-- `insertLicenseSchema.parse(req.body)`: unknown keys — including
`status` and `usedSeats`, which the schema omits — are stripped; the
numeric strings are parsed.  A failed numeric parse is folded into the
single failure outcome (`none`) together with the store rejecting a
non-numeric decimal. -/
def parseInsertLicense (p : LicensePayload) : Option InsertLicense :=
  match jsParseFloat p.cost, jsParseInt p.totalSeats with
  | some c, some n =>
    some (InsertLicense.mk p.softwareName p.vendorId p.teamId p.licenseType n c
      p.billingFrequency p.purchaseDate p.expiryDate p.contactPerson p.description)
  | _, _ => none

/-- `DatabaseStorage.createLicense` (src/server/routes.ts lines 279-285):
insert with the column defaults `usedSeats = 0`, `status = "active"`,
`createdAt = updatedAt = now`; the decimal column keeps two fractional
digits. -/
def createLicense (db : Db) (now : Int) (data : InsertLicense) : License × Db :=
  let l := License.mk (genId db.nextId) data.softwareName data.vendorId data.teamId
    data.licenseType data.totalSeats (some 0) (pgRound2 data.cost) data.billingFrequency
    data.purchaseDate data.expiryDate data.contactPerson data.description
    (some "active") now now
  (l, Db.mk db.vendors (db.licenses ++ [l]) (db.nextId + 1))

/-- The POST /api/licenses route body (src/server/routes.ts lines
90-109): validate, get-or-create the vendor by name, insert with the
vendor's id overriding the client-sent one.  `none` is the 400/500
failure outcome. -/
def createLicenseRoute (db : Db) (now : Int) (p : LicensePayload) :
    Option (License × Db) :=
  match parseInsertLicense p with
  | none => none
  | some data =>
    let vd := getOrCreateVendor db now p.vendorName
    some (createLicense vd.2 now
      (InsertLicense.mk data.softwareName vd.1.id data.teamId data.licenseType
        data.totalSeats data.cost data.billingFrequency data.purchaseDate
        data.expiryDate data.contactPerson data.description))

/-! Spec-shaped reference definitions, used only on the specification side
of the refinement statements; each transcribes the spec's words. -/

/-- Spec-shaped (spec §4.3 `monthlyCost`): a license's monthly-equivalent
cost — monthly: cost unchanged; quarterly: cost ÷ 3; annually: cost ÷ 12;
any other frequency contributes 0. -/
def monthlyEquivalent (l : License) : Rat :=
  match l.billingFrequency with
  | "monthly" => l.cost
  | "quarterly" => l.cost / 3
  | "annually" => l.cost / 12
  | _ => 0

/-- Ordered intersection of two lists: the elements of the first that also
occur in the second, in the first list's order. -/
def listInter (xs ys : List License) : List License :=
  xs.filter (fun x => decide (x ∈ ys))

/-- The distinct elements of a list in first-seen order. -/
def firstSeen (ks : List String) : List String :=
  ks.foldl (fun acc k => if k ∈ acc then acc else acc ++ [k]) []

/-- The group rows for a given list of keys: each key with every license
whose lower-cased software name equals it, in list order. -/
def groupsOf (ls : List License) (ks : List String) : List (String × List License) :=
  ks.map (fun k => (k, ls.filter (fun l => lowerKey l == k)))

/-- Spec-shaped (spec §4.3 duplicate detection, as the claim states it):
group keys are the lower-cased software names in pure first-seen order;
keep each key whose group has 2+ members, paired with its full group.
The code deviates from this ordering when a lowercased name is a
canonical array-index string (see the counterexample). -/
def dupGroupsSpec (ls : List License) : List (String × List License) :=
  (firstSeen (ls.map lowerKey)).filterMap (fun k =>
    if 1 < (ls.filter (fun l => lowerKey l == k)).length
    then some (k, ls.filter (fun l => lowerKey l == k))
    else none)

/-- The string-key comparison for ascending numeric order on array-index
keys. -/
def keyStrLe (a b : String) : Bool := decide (digitsVal a.data ≤ digitsVal b.data)

/-- ECMAScript object key enumeration order applied to the first-seen
keys: canonical array-index keys ascending by value, then the rest in
first-seen order. -/
def jsKeyOrder (ks : List String) : List String :=
  (ks.filter isArrayIndexKey).mergeSort keyStrLe ++
  ks.filter (fun k => !isArrayIndexKey k)

/-- The amended duplicate-group specification: as `dupGroupsSpec`, but
with the group keys in ECMAScript object enumeration order rather than
pure first-seen order. -/
def dupGroupsSpecJs (ls : List License) : List (String × List License) :=
  (jsKeyOrder (firstSeen (ls.map lowerKey))).filterMap (fun k =>
    if 1 < (ls.filter (fun l => lowerKey l == k)).length
    then some (k, ls.filter (fun l => lowerKey l == k))
    else none)

/-! Concrete stores for the spec's worked examples. -/

/-- A license row whose fields the examples do not vary take fixed
innocuous values. -/
def sampleLicense (id name freq : String) (total : Int) (used : Option Int)
    (cost : Rat) (status : Option String) (expiry : Option Int) (created : Int) : License :=
  License.mk id name "V1" "T1" "subscription" total used cost freq 0 expiry
    "carol" none status created created

/-- The metrics example of spec §8: {cost 120, monthly, seats 10/10} and
{cost 300, quarterly, seats 5/10}. -/
def exDbMetrics : Db :=
  Db.mk []
    [sampleLicense "L1" "Figma" "monthly" 10 (some 10) 120 (some "active") none 2,
     sampleLicense "L2" "Miro" "quarterly" 10 (some 5) 300 (some "active") none 1] 3

/-- The "Zoom" duplicate of the spec §8 example. -/
def licZoomUpper : License :=
  sampleLicense "D1" "Zoom" "monthly" 1 (some 0) 10 (some "active") none 3

/-- The "zoom" duplicate of the spec §8 example. -/
def licZoomLower : License :=
  sampleLicense "D2" "zoom" "monthly" 1 (some 0) 10 (some "active") none 2

/-- The "Slack" singleton of the spec §8 example. -/
def licSlack : License :=
  sampleLicense "D3" "Slack" "monthly" 1 (some 0) 10 (some "active") none 1

/-- The duplicate-detection example store. -/
def exDb4 : Db := Db.mk [] [licZoomUpper, licZoomLower, licSlack] 4

/-- First "Slack" duplicate of the key-enumeration counterexample. -/
def licSlackDup1 : License :=
  sampleLicense "K1" "Slack" "monthly" 1 (some 0) 10 (some "active") none 4

/-- Second "Slack" duplicate of the key-enumeration counterexample. -/
def licSlackDup2 : License :=
  sampleLicense "K2" "Slack" "monthly" 1 (some 0) 10 (some "active") none 3

/-- First "2048" duplicate: its lowercased name is a canonical
array-index key. -/
def licNum1 : License :=
  sampleLicense "K3" "2048" "monthly" 1 (some 0) 10 (some "active") none 2

/-- Second "2048" duplicate. -/
def licNum2 : License :=
  sampleLicense "K4" "2048" "monthly" 1 (some 0) 10 (some "active") none 1

/-- Store on which the program's group order deviates from first-seen
order: "Slack" is seen first, but `Object.entries` lists the "2048"
group first. -/
def exDbNum : Db := Db.mk [] [licSlackDup1, licSlackDup2, licNum1, licNum2] 5

/-- Upper-case non-ASCII name for the Unicode lowercasing example. -/
def licCafeUpper : License :=
  sampleLicense "U1" "CAFÉ" "monthly" 1 (some 0) 10 (some "active") none 2

/-- Lower-case non-ASCII name for the Unicode lowercasing example. -/
def licCafeLower : License :=
  sampleLicense "U2" "café" "monthly" 1 (some 0) 10 (some "active") none 1

/-- Store showing Unicode names grouping together under lowercasing. -/
def exDbCafe : Db := Db.mk [] [licCafeUpper, licCafeLower] 3

/-- Active license expiring inside the 30-day window (day 14). -/
def licActiveSoon : License :=
  sampleLicense "E1" "AppA" "monthly" 1 (some 0) 10 (some "active") (some 14) 3

/-- Active license expiring outside the window (day 60). -/
def licActiveLate : License :=
  sampleLicense "E2" "AppB" "monthly" 1 (some 0) 10 (some "active") (some 60) 2

/-- Cancelled license expiring inside the window (day 9). -/
def licCancelled : License :=
  sampleLicense "E3" "AppC" "monthly" 1 (some 0) 10 (some "cancelled") (some 9) 1

/-- The expiring-selection example store (today is day 0). -/
def exDb5 : Db := Db.mk [] [licActiveSoon, licActiveLate, licCancelled] 4

/-- A single license for the update example. -/
def licW : License :=
  sampleLicense "W1" "Wrike" "monthly" 5 (some 1) 25 (some "active") none 1

/-- The update example store. -/
def exDb1 : Db := Db.mk [] [licW] 2

/-- A creation payload that tries to smuggle in `status` and
`usedSeats`. -/
def exPayloadA : LicensePayload :=
  LicensePayload.mk "Asana" "AsanaInc" "ignored" "T1" "subscription" "25" "49.99"
    "monthly" 0 none "dana" none (some "cancelled") (some 99)

/-- The same creation payload without `status` and `usedSeats`. -/
def exPayloadB : LicensePayload :=
  LicensePayload.mk "Asana" "AsanaInc" "ignored" "T1" "subscription" "25" "49.99"
    "monthly" 0 none "dana" none none none

/-! ### Helper lemmas -/

/-- A concatenation where a test is false on the left part and true on the
right determines the split point uniquely. -/
theorem split_unique {α : Type} (Q : α → Bool) :
    ∀ (l₁ : List α) {l₂ m₁ m₂ : List α}, l₁ ++ l₂ = m₁ ++ m₂ →
      (∀ b ∈ l₁, Q b = false) → (∀ b ∈ l₂, Q b = true) →
      (∀ b ∈ m₁, Q b = false) → (∀ b ∈ m₂, Q b = true) →
      l₁ = m₁ ∧ l₂ = m₂ := by
  intro l₁
  induction l₁ with
  | nil =>
    intro l₂ m₁ m₂ he _ h2 h3 _
    cases m₁ with
    | nil => exact ⟨rfl, he⟩
    | cons c m₁' =>
      exfalso
      simp only [List.nil_append] at he
      have hc : c ∈ l₂ := by
        rw [he]; exact List.mem_cons_self _ _
      have hQc := h2 c hc
      have hQc' := h3 c (List.mem_cons_self _ _)
      rw [hQc] at hQc'
      simp at hQc'
  | cons a l₁' ih =>
    intro l₂ m₁ m₂ he h1 h2 h3 h4
    cases m₁ with
    | nil =>
      exfalso
      simp only [List.nil_append] at he
      have ha : a ∈ m₂ := by
        rw [← he]; exact List.mem_cons_self _ _
      have hQa := h4 a ha
      have hQa' := h1 a (List.mem_cons_self _ _)
      rw [hQa'] at hQa
      simp at hQa
    | cons c m₁' =>
      simp only [List.cons_append] at he
      injection he with h5 h6
      subst h5
      obtain ⟨e1, e2⟩ := ih h6 (fun b hb => h1 b (List.mem_cons_of_mem _ hb)) h2
        (fun b hb => h3 b (List.mem_cons_of_mem _ hb)) h4
      exact ⟨by rw [e1], e2⟩

/-- A stable merge sort commutes with `filter`. -/
theorem mergeSort_filter {α : Type} {le : α → α → Bool}
    (htrans : ∀ a b c, le a b → le b c → le a c)
    (htotal : ∀ a b, le a b || le b a) (p : α → Bool) :
    ∀ l : List α, (l.mergeSort le).filter p = (l.filter p).mergeSort le := by
  intro l
  induction l with
  | nil => simp
  | cons a t ih =>
    obtain ⟨l₁, l₂, e₁, e₂, h₁⟩ := List.mergeSort_cons htrans htotal a t
    have hs1 := List.sorted_mergeSort htrans htotal (a :: t)
    rw [e₁] at hs1
    have hl₂ : ∀ b ∈ l₂, le a b = true := by
      intro b hb
      exact List.rel_of_pairwise_cons (List.pairwise_append.mp hs1).2.1 hb
    by_cases hpa : p a = true
    · obtain ⟨m₁, m₂, f₁, f₂, g₁⟩ := List.mergeSort_cons htrans htotal a (t.filter p)
      have hs2 := List.sorted_mergeSort htrans htotal (a :: t.filter p)
      rw [f₁] at hs2
      have hm₂ : ∀ b ∈ m₂, le a b = true := by
        intro b hb
        exact List.rel_of_pairwise_cons (List.pairwise_append.mp hs2).2.1 hb
      have key : (l₁.filter p) ++ (l₂.filter p) = m₁ ++ m₂ := by
        rw [← List.filter_append, ← e₂, ih, f₂]
      have hl₁f : ∀ b ∈ l₁.filter p, le a b = false := by
        intro b hb
        have := h₁ b (List.mem_of_mem_filter hb)
        simpa using this
      have hl₂f : ∀ b ∈ l₂.filter p, le a b = true :=
        fun b hb => hl₂ b (List.mem_of_mem_filter hb)
      have hm₁f : ∀ b ∈ m₁, le a b = false := by
        intro b hb
        have := g₁ b hb
        simpa using this
      obtain ⟨q1, q2⟩ := split_unique (fun b => le a b) (l₁.filter p) key hl₁f hl₂f hm₁f hm₂
      calc ((a :: t).mergeSort le).filter p
          = (l₁ ++ a :: l₂).filter p := by rw [e₁]
        _ = l₁.filter p ++ a :: l₂.filter p := by
              rw [List.filter_append, List.filter_cons_of_pos hpa]
        _ = m₁ ++ a :: m₂ := by rw [q1, q2]
        _ = (a :: t.filter p).mergeSort le := f₁.symm
        _ = ((a :: t).filter p).mergeSort le := by rw [List.filter_cons_of_pos hpa]
    · have hpa' : ¬ p a := by simpa using hpa
      calc ((a :: t).mergeSort le).filter p
          = (l₁ ++ a :: l₂).filter p := by rw [e₁]
        _ = l₁.filter p ++ l₂.filter p := by
              rw [List.filter_append, List.filter_cons_of_neg hpa']
        _ = (l₁ ++ l₂).filter p := (List.filter_append _ _).symm
        _ = (t.mergeSort le).filter p := by rw [e₂]
        _ = (t.filter p).mergeSort le := ih
        _ = ((a :: t).filter p).mergeSort le := by rw [List.filter_cons_of_neg hpa']

/-- The `created_at` descending comparison is transitive. -/
theorem createdDesc_trans :
    ∀ a b c, createdDesc a b → createdDesc b c → createdDesc a c := by
  intro a b c h1 h2
  simp only [createdDesc, decide_eq_true_eq] at h1 h2 ⊢
  omega

/-- The `created_at` descending comparison is total. -/
theorem createdDesc_total : ∀ a b, createdDesc a b || createdDesc b a := by
  intro a b
  simp only [createdDesc, Bool.or_eq_true, decide_eq_true_eq]
  omega

/-- `ORDER BY created_at DESC` commutes with a row filter. -/
theorem orderBy_filter (p : License → Bool) (ls : List License) :
    (orderByCreatedAtDesc ls).filter p = orderByCreatedAtDesc (ls.filter p) :=
  mergeSort_filter createdDesc_trans createdDesc_total p ls

/-- `searchLicenses` is the ordered license list restricted to the rows
satisfying every built condition. -/
theorem searchLicenses_eq_filter (db : Db) (fs : Filters) :
    searchLicenses db fs =
      (getAllLicenses db).filter (fun l => (searchConds fs).all (fun c => c l)) :=
  (orderBy_filter _ _).symm

/-- The `%` pattern head matches exactly when some way of splitting off a
leading run lets the rest of the pattern match. -/
theorem likeMatch_star_iff (ps : List Char) (t : List Char) :
    likeMatch ('%' :: ps) t = true ↔
      ∃ pre t', pre ++ t' = t ∧ likeMatch ps t' = true := by
  have hstar : likeMatch ('%' :: ps) t = t.tails.any (fun t' => likeMatch ps t') := by
    simp [likeMatch]
  rw [hstar, List.any_eq_true]
  constructor
  · rintro ⟨t', ht', hm⟩
    obtain ⟨pre, hpre⟩ := (List.mem_tails _ _).mp ht'
    exact ⟨pre, t', hpre, hm⟩
  · rintro ⟨pre, t', hpre, hm⟩
    exact ⟨t', (List.mem_tails _ _).mpr ⟨pre, hpre⟩, hm⟩

/-- A wildcard-free pattern followed by `%` matches exactly the texts
that start with it. -/
theorem likeMatch_lit_tail :
    ∀ s : List Char, (∀ c ∈ s, ¬ c = '%' ∧ ¬ c = '_') →
      ∀ t, likeMatch (s ++ ['%']) t = true ↔ ∃ post, t = s ++ post := by
  intro s
  induction s with
  | nil =>
    intro _ t
    simp only [List.nil_append]
    have hstar : likeMatch ['%'] t = t.tails.any (fun t' => likeMatch [] t') := by
      simp [likeMatch]
    rw [hstar, List.any_eq_true]
    constructor
    · intro _
      exact ⟨t, rfl⟩
    · intro _
      refine ⟨[], (List.mem_tails _ _).mpr List.nil_suffix, ?_⟩
      rfl
  | cons c s' ih =>
    intro hs t
    have hc := hs c (List.mem_cons_self _ _)
    have hs' : ∀ c' ∈ s', ¬ c' = '%' ∧ ¬ c' = '_' :=
      fun c' hc' => hs c' (List.mem_cons_of_mem _ hc')
    have hlit : likeMatch ((c :: s') ++ ['%']) t =
        (if c = '%' then t.tails.any (fun t' => likeMatch (s' ++ ['%']) t')
         else if c = '_' then
           (match t with
            | [] => false
            | _ :: ts => likeMatch (s' ++ ['%']) ts)
         else
           (match t with
            | [] => false
            | d :: ts => c == d && likeMatch (s' ++ ['%']) ts)) := rfl
    rw [hlit, if_neg hc.1, if_neg hc.2]
    cases t with
    | nil =>
      simp
    | cons d ts =>
      show (c == d && likeMatch (s' ++ ['%']) ts) = true ↔ _
      rw [Bool.and_eq_true, beq_iff_eq]
      constructor
      · rintro ⟨hcd, hm⟩
        obtain ⟨post, hpost⟩ := (ih hs' ts).mp hm
        exact ⟨post, by rw [List.cons_append, ← hcd, hpost]⟩
      · rintro ⟨post, hpost⟩
        rw [List.cons_append] at hpost
        injection hpost with h1 h2
        exact ⟨h1.symm, (ih hs' ts).mpr ⟨post, h2⟩⟩

/-- For a wildcard-free search text `s`, the pattern `%s%` matches
exactly the texts containing `s` as a contiguous run. -/
theorem likeMatch_substring (s : List Char) (hs : ∀ c ∈ s, ¬ c = '%' ∧ ¬ c = '_')
    (t : List Char) :
    likeMatch ('%' :: (s ++ ['%'])) t = true ↔
      ∃ pre post, t = pre ++ (s ++ post) := by
  rw [likeMatch_star_iff]
  constructor
  · rintro ⟨pre, t', hpre, hm⟩
    obtain ⟨post, hpost⟩ := (likeMatch_lit_tail s hs t').mp hm
    exact ⟨pre, post, by rw [← hpre, hpost]⟩
  · rintro ⟨pre, post, hsplit⟩
    refine ⟨pre, s ++ post, hsplit.symm, ?_⟩
    exact (likeMatch_lit_tail s hs _).mpr ⟨post, rfl⟩

/-- The conjunction of all built conditions splits into the four
single-filter condition lists. -/
theorem searchConds_split (fs : Filters) (l : License) :
    (searchConds fs).all (fun c => c l) =
      ((((searchConds (Filters.mk fs.search none none none)).all (fun c => c l) &&
         (searchConds (Filters.mk none fs.teamId none none)).all (fun c => c l)) &&
        (searchConds (Filters.mk none none fs.vendorId none)).all (fun c => c l)) &&
       (searchConds (Filters.mk none none none fs.status)).all (fun c => c l)) := by
  simp only [searchConds, List.all_append, List.append_nil, List.nil_append, Bool.and_assoc]

/-- Intersecting two filterings of the same list is filtering by the
conjunction. -/
theorem filter_inter (base : List License) (p q : License → Bool) :
    listInter (base.filter p) (base.filter q) = base.filter (fun x => p x && q x) := by
  unfold listInter
  have h : ∀ x ∈ base.filter p, (decide (x ∈ base.filter q)) = q x := by
    intro x hx
    have hxb : x ∈ base := List.mem_of_mem_filter hx
    by_cases hq : q x = true
    · simp [List.mem_filter, hxb, hq]
    · have hq' : q x = false := by simpa using hq
      simp [List.mem_filter, hq']
  rw [List.filter_congr h, List.filter_filter]
  apply List.filter_congr
  intro x _
  exact Bool.and_comm _ _

/-- Claim C3: `searchLicenses(filters)` is pure AND-composition of the
optional predicates: its result is the ordered intersection of the four
single-predicate results, the empty filter object returns exactly
`getAllLicenses`, and results are ordered by creation time descending. -/
theorem searchLicenses_c3 (db : Db) (fs : Filters) :
    searchLicenses db fs =
      listInter (listInter (listInter
        (searchLicenses db (Filters.mk fs.search none none none))
        (searchLicenses db (Filters.mk none fs.teamId none none)))
        (searchLicenses db (Filters.mk none none fs.vendorId none)))
        (searchLicenses db (Filters.mk none none none fs.status)) ∧
    searchLicenses db (Filters.mk none none none none) = getAllLicenses db ∧
    (searchLicenses db fs).Pairwise (fun a b => b.createdAt ≤ a.createdAt) ∧
    (∀ (s : String) (l : License), (∀ c ∈ s.data, ¬ c = '%' ∧ ¬ c = '_') →
      ((searchConds (Filters.mk (some s) none none none)).all (fun c => c l) = true ↔
        ∃ pre post, l.softwareName.data = pre ++ (s.data ++ post))) := by
  refine ⟨?_, ?_, ?_, ?_⟩
  · rw [searchLicenses_eq_filter db fs,
      searchLicenses_eq_filter db (Filters.mk fs.search none none none),
      searchLicenses_eq_filter db (Filters.mk none fs.teamId none none),
      searchLicenses_eq_filter db (Filters.mk none none fs.vendorId none),
      searchLicenses_eq_filter db (Filters.mk none none none fs.status),
      filter_inter, filter_inter, filter_inter]
    apply List.filter_congr
    intro l _
    exact searchConds_split fs l
  · rw [searchLicenses_eq_filter]
    have h : ∀ l ∈ getAllLicenses db,
        ((searchConds (Filters.mk none none none none)).all (fun c => c l)) =
          ((fun _ : License => true) l) :=
      fun l _ => rfl
    rw [List.filter_congr h, List.filter_true]
  · have hs := List.sorted_mergeSort createdDesc_trans createdDesc_total
      (db.licenses.filter (fun l => (searchConds fs).all (fun c => c l)))
    exact hs.imp (fun h => by simpa [createdDesc] using h)
  · intro s l hs
    by_cases hse : s = ""
    · subst hse
      constructor
      · intro _
        exact ⟨[], l.softwareName.data, rfl⟩
      · intro _
        rfl
    · have hb : ¬ (s == "") = true := by simpa using hse
      have hconds : searchConds (Filters.mk (some s) none none none) =
          [fun l' => likeMatch ("%" ++ s ++ "%").toList l'.softwareName.toList] := by
        simp only [searchConds]
        rw [if_neg hb]
        rfl
      rw [hconds]
      show (likeMatch ("%" ++ s ++ "%").toList l.softwareName.toList && true) = true ↔ _
      rw [Bool.and_true]
      have hpat : ("%" ++ s ++ "%").toList = '%' :: (s.data ++ ['%']) := rfl
      rw [hpat]
      exact likeMatch_substring s.data hs l.softwareName.data

/-- One `reduce` step adds exactly the license's monthly-equivalent cost. -/
theorem monthlyStep_eq (total : Rat) (l : License) :
    monthlyStep total l = total + monthlyEquivalent l := by
  unfold monthlyStep monthlyEquivalent
  split <;> simp_all

/-- The cost `reduce` computes the sum of the monthly equivalents. -/
theorem foldl_monthlyStep (ls : List License) : ∀ init : Rat,
    ls.foldl monthlyStep init = init + (ls.map monthlyEquivalent).sum := by
  induction ls with
  | nil => intro init; simp
  | cons a t ih =>
    intro init
    simp only [List.foldl_cons, List.map_cons, List.sum_cons, ih, monthlyStep_eq]
    ring

/-- The seat-total `reduce` computes the sum of `totalSeats`. -/
theorem foldl_totalSeats (ls : List License) : ∀ init : Int,
    ls.foldl (fun t l => t + l.totalSeats) init = init + (ls.map (fun l => l.totalSeats)).sum := by
  induction ls with
  | nil => intro init; simp
  | cons a t ih =>
    intro init
    simp only [List.foldl_cons, List.map_cons, List.sum_cons, ih]
    ring

/-- The used-seat `reduce` computes the sum of `usedSeats` with null as 0. -/
theorem foldl_usedSeats (ls : List License) : ∀ init : Int,
    ls.foldl (fun t l => t + l.usedSeats.getD 0) init =
      init + (ls.map (fun l => l.usedSeats.getD 0)).sum := by
  induction ls with
  | nil => intro init; simp
  | cons a t ih =>
    intro init
    simp only [List.foldl_cons, List.map_cons, List.sum_cons, ih]
    ring

/-- The metrics example store is already in creation-time descending
order, so `getAllLicenses` returns its rows as listed. -/
theorem getAll_exDbMetrics : getAllLicenses exDbMetrics = exDbMetrics.licenses := by
  unfold getAllLicenses orderByCreatedAtDesc
  apply List.mergeSort_of_sorted
  decide

/-- Claim C2: `getLicenseMetrics().monthlyCost` is the rounding, applied
once to the final sum, of the sum over all licenses of each license's
monthly-equivalent cost (monthly: unchanged, quarterly: ÷3, annually:
÷12, other: 0); on the spec's example it is round(120 + 100) = 220. -/
theorem monthlyCost_c2 (db : Db) (today : Int) :
    (getLicenseMetrics db today).monthlyCost =
      jsRound (((getAllLicenses db).map monthlyEquivalent).sum) ∧
    (getLicenseMetrics exDbMetrics 0).monthlyCost = 220 := by
  constructor
  · unfold getLicenseMetrics
    simp only [foldl_monthlyStep, zero_add]
  · have h1 : (getLicenseMetrics exDbMetrics 0).monthlyCost =
        jsRound (((getAllLicenses exDbMetrics).map monthlyEquivalent).sum) := by
      unfold getLicenseMetrics
      simp only [foldl_monthlyStep, zero_add]
    rw [h1, getAll_exDbMetrics]
    have h2 : (exDbMetrics.licenses.map monthlyEquivalent).sum = (120 : Rat) + 300 / 3 := by
      show (120 : Rat) + ((300 : Rat) / 3 + 0) = (120 : Rat) + 300 / 3
      ring
    rw [h2]
    have h3 : jsRound ((120 : Rat) + 300 / 3) = ⌊((120 : Rat) + 300 / 3 + 1 / 2)⌋ := rfl
    rw [h3, Int.floor_eq_iff]
    constructor
    · norm_num
    · norm_num

/-- Claim C6: `utilizationRate` is the used-seat sum (null counted as 0)
over the total-seat sum, times 100, rounded — and 0 whenever the
total-seat sum is 0, so the division is never performed on a zero
denominator; on the spec's example it is round(15/20·100) = 75. -/
theorem utilization_c6 (db : Db) (today : Int) :
    (((getAllLicenses db).map (fun l => l.totalSeats)).sum = 0 →
      (getLicenseMetrics db today).utilizationRate = 0) ∧
    (0 < ((getAllLicenses db).map (fun l => l.totalSeats)).sum →
      (getLicenseMetrics db today).utilizationRate =
        jsRound (((((getAllLicenses db).map (fun l => l.usedSeats.getD 0)).sum : Int) : Rat) /
          ((((getAllLicenses db).map (fun l => l.totalSeats)).sum : Int) : Rat) * 100)) ∧
    (getLicenseMetrics exDbMetrics 0).utilizationRate = 75 := by
  have hT : sumTotalSeatsFold (getAllLicenses db) =
      ((getAllLicenses db).map (fun l => l.totalSeats)).sum := by
    unfold sumTotalSeatsFold
    rw [foldl_totalSeats]
    ring
  have hU : sumUsedSeatsFold (getAllLicenses db) =
      ((getAllLicenses db).map (fun l => l.usedSeats.getD 0)).sum := by
    unfold sumUsedSeatsFold
    rw [foldl_usedSeats]
    ring
  refine ⟨?_, ?_, ?_⟩
  · intro h0
    have hneg : ¬ 0 < sumTotalSeatsFold (getAllLicenses db) := by
      rw [hT, h0]
      omega
    simp only [getLicenseMetrics]
    rw [if_neg hneg]
  · intro h0
    have hpos : 0 < sumTotalSeatsFold (getAllLicenses db) := by
      rw [hT]
      exact h0
    simp only [getLicenseMetrics]
    rw [if_pos hpos, hU, hT]
  · simp only [getLicenseMetrics]
    rw [getAll_exDbMetrics]
    have ht : sumTotalSeatsFold exDbMetrics.licenses = 20 := rfl
    have hu : sumUsedSeatsFold exDbMetrics.licenses = 15 := rfl
    rw [ht, hu, if_pos (by norm_num)]
    have h3 : jsRound (((15 : Int) : Rat) / ((20 : Int) : Rat) * 100) =
        ⌊(((15 : Int) : Rat) / ((20 : Int) : Rat) * 100 + 1 / 2)⌋ := rfl
    rw [h3, Int.floor_eq_iff]
    constructor
    · norm_num
    · norm_num

/-- Claim C5: `getExpiringLicenses(days)` returns exactly the licenses
with status "active" whose expiry date lies in the inclusive window
[today, today + days]; on the spec's example (today = day 0, window 30)
only the active license expiring on day 14 is returned; the route's
window defaults to 30 when the parameter is absent. -/
theorem expiring_c5 (db : Db) (today days : Int) :
    (∀ l, l ∈ getExpiringLicenses db today days ↔
      l ∈ db.licenses ∧ l.status = some "active" ∧
        ∃ d, l.expiryDate = some d ∧ today ≤ d ∧ d ≤ today + days) ∧
    getExpiringLicenses exDb5 0 30 = [licActiveSoon] ∧
    expiringDaysParam none = 30 := by
  refine ⟨?_, rfl, rfl⟩
  intro l
  unfold getExpiringLicenses
  rw [List.mem_filter]
  constructor
  · rintro ⟨hm, hp⟩
    unfold expiringPred at hp
    cases he : l.expiryDate with
    | none => rw [he] at hp; simp at hp
    | some d =>
      rw [he] at hp
      simp only [Bool.and_eq_true, decide_eq_true_eq, beq_iff_eq] at hp
      exact ⟨hm, hp.2, d, rfl, hp.1.2, hp.1.1⟩
  · rintro ⟨hm, hs, d, hd, h1, h2⟩
    refine ⟨hm, ?_⟩
    unfold expiringPred
    rw [hd]
    simp only [Bool.and_eq_true, decide_eq_true_eq, beq_iff_eq]
    exact ⟨⟨h2, h1⟩, hs⟩

/-- `firstSeen` over a snoc appends the key when it is new. -/
theorem firstSeen_snoc (ks : List String) (k : String) :
    firstSeen (ks ++ [k]) =
      if k ∈ firstSeen ks then firstSeen ks else firstSeen ks ++ [k] := by
  unfold firstSeen
  rw [List.foldl_append]
  rfl

/-- `firstSeen` keeps exactly the elements of its input. -/
theorem mem_firstSeen : ∀ (ks : List String) (a : String),
    a ∈ firstSeen ks ↔ a ∈ ks := by
  intro ks
  induction ks using List.reverseRecOn with
  | nil => intro a; simp [firstSeen]
  | append_singleton t x ih =>
    intro a
    rw [firstSeen_snoc]
    by_cases h : x ∈ firstSeen t
    · rw [if_pos h]
      constructor
      · intro ha
        exact List.mem_append_left _ ((ih a).mp ha)
      · intro ha
        rcases List.mem_append.mp ha with h1 | h1
        · exact (ih a).mpr h1
        · have hax : a = x := by simpa using h1
          rw [hax]
          exact h
    · rw [if_neg h]
      simp [List.mem_append, ih]

/-- `firstSeen` produces a list without duplicates. -/
theorem firstSeen_nodup : ∀ ks : List String, (firstSeen ks).Nodup := by
  intro ks
  induction ks using List.reverseRecOn with
  | nil => simp [firstSeen]
  | append_singleton t x ih =>
    rw [firstSeen_snoc]
    by_cases h : x ∈ firstSeen t
    · rw [if_pos h]
      exact ih
    · rw [if_neg h]
      simp [List.nodup_append, ih, h]

/-- Appending a license with a different key leaves a key's group filter
unchanged. -/
theorem filter_snoc_ne (t : List License) (x : License) (k : String)
    (h : ¬ lowerKey x = k) :
    (t ++ [x]).filter (fun l => lowerKey l == k) =
      t.filter (fun l => lowerKey l == k) := by
  rw [List.filter_append]
  simp [h]

/-- Appending a license appends it to its own key's group filter. -/
theorem filter_snoc_eq (t : List License) (x : License) :
    (t ++ [x]).filter (fun l => lowerKey l == lowerKey x) =
      t.filter (fun l => lowerKey l == lowerKey x) ++ [x] := by
  rw [List.filter_append]
  simp

/-- Pushing a license whose key is already present extends that key's
group in place. -/
theorem addToGroups_mem (t : List License) (x : License) :
    ∀ KS : List String, KS.Nodup → lowerKey x ∈ KS →
      addToGroups (groupsOf t KS) (lowerKey x) x = groupsOf (t ++ [x]) KS := by
  intro KS
  induction KS with
  | nil =>
    intro _ h
    simp at h
  | cons k₀ rest ih =>
    intro hnd hmem
    unfold groupsOf
    simp only [List.map_cons]
    unfold addToGroups
    by_cases he : k₀ == lowerKey x
    · rw [if_pos he]
      have hk : k₀ = lowerKey x := by simpa using he
      have hrest : lowerKey x ∉ rest := by
        rw [← hk]
        exact (List.nodup_cons.mp hnd).1
      congr 1
      · rw [hk, filter_snoc_eq]
      · apply List.map_congr_left
        intro k' hk'
        have hne : ¬ lowerKey x = k' := fun hcontra => hrest (hcontra ▸ hk')
        rw [filter_snoc_ne t x k' hne]
    · rw [if_neg he]
      have hk : ¬ k₀ = lowerKey x := by simpa using he
      have hmem' : lowerKey x ∈ rest := by
        rcases List.mem_cons.mp hmem with h1 | h1
        · exact absurd h1.symm hk
        · exact h1
      congr 1
      · rw [filter_snoc_ne t x k₀ (fun hcontra => hk hcontra.symm)]
      · have := ih (List.nodup_cons.mp hnd).2 hmem'
        unfold groupsOf at this
        exact this

/-- Pushing a license whose key is new appends a fresh singleton group. -/
theorem addToGroups_not_mem (t : List License) (x : License) :
    ∀ KS : List String, lowerKey x ∉ KS →
      addToGroups (groupsOf t KS) (lowerKey x) x =
        groupsOf t KS ++ [(lowerKey x, [x])] := by
  intro KS
  induction KS with
  | nil => intro _; rfl
  | cons k₀ rest ih =>
    intro hmem
    unfold groupsOf
    simp only [List.map_cons]
    unfold addToGroups
    have hk : ¬ k₀ == lowerKey x := by
      simp only [beq_iff_eq]
      intro hcontra
      exact hmem (hcontra ▸ List.mem_cons_self _ _)
    rw [if_neg hk]
    have := ih (fun hcontra => hmem (List.mem_cons_of_mem _ hcontra))
    unfold groupsOf at this
    rw [this]
    simp

/-- The grouping `reduce` produces exactly one group per first-seen key,
holding that key's licenses in list order. -/
theorem groupBySoftware_eq (ls : List License) :
    groupBySoftware ls = groupsOf ls (firstSeen (ls.map lowerKey)) := by
  induction ls using List.reverseRecOn with
  | nil => rfl
  | append_singleton t x ih =>
    have hstep : groupBySoftware (t ++ [x]) =
        addToGroups (groupBySoftware t) (lowerKey x) x := by
      unfold groupBySoftware
      rw [List.foldl_append]
      rfl
    rw [hstep, ih, List.map_append]
    simp only [List.map_cons, List.map_nil]
    rw [firstSeen_snoc]
    by_cases h : lowerKey x ∈ firstSeen (t.map lowerKey)
    · rw [if_pos h]
      exact addToGroups_mem t x _ (firstSeen_nodup _) h
    · rw [if_neg h]
      rw [addToGroups_not_mem t x _ h]
      unfold groupsOf
      rw [List.map_append]
      congr 1
      · apply List.map_congr_left
        intro k' hk'
        have hne : ¬ lowerKey x = k' := fun hcontra => h (hcontra ▸ hk')
        rw [filter_snoc_ne t x k' hne]
      · simp only [List.map_cons, List.map_nil]
        have ht : t.filter (fun l => lowerKey l == lowerKey x) = [] := by
          rw [List.filter_eq_nil_iff]
          intro l hl hb
          apply h
          rw [mem_firstSeen]
          have hlk : lowerKey l = lowerKey x := by simpa using hb
          exact hlk ▸ List.mem_map_of_mem lowerKey hl
        rw [filter_snoc_eq, ht]
        rfl

/-- Filtering a mapped list is a `filterMap` over the keys. -/
theorem map_filter_eq_filterMap {α β : Type} (F : α → β) (P : β → Bool) :
    ∀ ks : List α,
      (ks.map F).filter P =
        ks.filterMap (fun k => if P (F k) then some (F k) else none) := by
  intro ks
  induction ks with
  | nil => rfl
  | cons k tl ih =>
    simp only [List.map_cons, List.filterMap_cons]
    by_cases h : P (F k)
    · rw [List.filter_cons_of_pos h, if_pos h, ih]
    · rw [List.filter_cons_of_neg h, if_neg h, ih]

/-- The duplicate example store is already in creation-time descending
order. -/
theorem getAll_exDb4 : getAllLicenses exDb4 = exDb4.licenses := by
  unfold getAllLicenses orderByCreatedAtDesc
  apply List.mergeSort_of_sorted
  decide

/-- A key-based filter on the group rows filters the keys. -/
theorem filter_groupsOf (ls : List License) (ks : List String) (p : String → Bool) :
    (groupsOf ls ks).filter (fun e => p e.1) = groupsOf ls (ks.filter p) := by
  unfold groupsOf
  rw [List.filter_map]
  rfl

/-- Sorting group rows by numeric key value sorts the keys. -/
theorem mergeSort_groupsOf (ls : List License) (ks : List String) :
    (groupsOf ls ks).mergeSort keyNumLe = groupsOf ls (ks.mergeSort keyStrLe) := by
  unfold groupsOf
  have hl : ∀ a ∈ ks, ∀ b ∈ ks, keyStrLe a b =
      keyNumLe (a, ls.filter (fun l => lowerKey l == a))
        (b, ls.filter (fun l => lowerKey l == b)) :=
    fun a _ b _ => rfl
  exact (List.map_mergeSort hl).symm

/-- `Object.entries` enumeration of the group rows reorders exactly the
keys. -/
theorem jsObjectEntries_groupsOf (ls : List License) (ks : List String) :
    jsObjectEntries (groupsOf ls ks) = groupsOf ls (jsKeyOrder ks) := by
  unfold jsObjectEntries jsKeyOrder
  rw [filter_groupsOf ls ks isArrayIndexKey,
    filter_groupsOf ls ks (fun k => !isArrayIndexKey k),
    mergeSort_groupsOf]
  unfold groupsOf
  rw [List.map_append]

/-- The key-enumeration example store is already in creation-time
descending order. -/
theorem getAll_exDbNum : getAllLicenses exDbNum = exDbNum.licenses := by
  unfold getAllLicenses orderByCreatedAtDesc
  apply List.mergeSort_of_sorted
  decide

/-- The Unicode example store is already in creation-time descending
order. -/
theorem getAll_exDbCafe : getAllLicenses exDbCafe = exDbCafe.licenses := by
  unfold getAllLicenses orderByCreatedAtDesc
  apply List.mergeSort_of_sorted
  decide

set_option maxRecDepth 40000 in
/-- Claim C4, counterexample to the claim as stated: on licenses named
"Slack", "Slack", "2048", "2048" (in that enumeration order), the
program returns the group keys as ["2048", "slack"], although the
first-seen order of the group keys is ["slack", "2048"] —
`Object.entries` enumerates canonical array-index keys such as "2048"
first, in ascending numeric order, ahead of the insertion-order string
keys. -/
theorem duplicates_c4_counterexample :
    (getDuplicateLicenses exDbNum).map (fun g => g.1) = ["2048", "slack"] ∧
    firstSeen ((getAllLicenses exDbNum).map lowerKey) = ["slack", "2048"] := by
  constructor
  · have hg : groupBySoftware exDbNum.licenses =
        [("slack", [licSlackDup1, licSlackDup2]), ("2048", [licNum1, licNum2])] := rfl
    unfold getDuplicateLicenses jsObjectEntries
    rw [getAll_exDbNum, hg]
    have hidx : ([("slack", [licSlackDup1, licSlackDup2]),
        ("2048", [licNum1, licNum2])].filter (fun e => isArrayIndexKey e.1)) =
        [("2048", [licNum1, licNum2])] := rfl
    rw [hidx, List.mergeSort_singleton]
    rfl
  · rw [getAll_exDbNum]
    rfl

set_option maxRecDepth 40000 in
/-- Claim C4 as amended: `getDuplicateLicenses()` groups all licenses by
softwareName lowercased (Unicode lowercasing) and returns only the
groups with 2 or more members, each group's softwareName field being the
lowercased key; the group keys enumerate in ECMAScript object key order —
canonical array-index keys (names such as "2048") first in ascending
numeric order, then the remaining keys in first-seen order.  On licenses
named "Zoom", "zoom", "Slack" it returns exactly one group, with key
"zoom" and 2 members; "CAFÉ" and "café" form one group keyed "café". -/
theorem duplicates_c4 (db : Db) :
    getDuplicateLicenses db = dupGroupsSpecJs (getAllLicenses db) ∧
    (∀ g ∈ getDuplicateLicenses db, 2 ≤ g.2.length ∧
      ∀ l ∈ g.2, jsToLower l.softwareName = g.1) ∧
    getDuplicateLicenses exDb4 = [("zoom", [licZoomUpper, licZoomLower])] ∧
    getDuplicateLicenses exDbNum =
      [("2048", [licNum1, licNum2]), ("slack", [licSlackDup1, licSlackDup2])] ∧
    getDuplicateLicenses exDbCafe = [("café", [licCafeUpper, licCafeLower])] := by
  have hmain : ∀ dbx : Db,
      getDuplicateLicenses dbx = dupGroupsSpecJs (getAllLicenses dbx) := by
    intro dbx
    unfold getDuplicateLicenses dupGroupsSpecJs
    rw [groupBySoftware_eq, jsObjectEntries_groupsOf]
    unfold groupsOf
    rw [map_filter_eq_filterMap]
    congr 1
    funext k
    simp
  refine ⟨hmain db, ?_, ?_, ?_, ?_⟩
  · intro g hg
    rw [hmain db] at hg
    unfold dupGroupsSpecJs at hg
    rw [List.mem_filterMap] at hg
    obtain ⟨k, _, hif⟩ := hg
    by_cases hlen : 1 < ((getAllLicenses db).filter (fun l => lowerKey l == k)).length
    · rw [if_pos hlen] at hif
      injection hif with hif
      subst hif
      refine ⟨by simpa using hlen, ?_⟩
      intro l hl
      have hb := (List.mem_filter.mp hl).2
      simpa [lowerKey] using hb
    · rw [if_neg hlen] at hif
      exact absurd hif (by simp)
  · have hg : groupBySoftware exDb4.licenses =
        [("zoom", [licZoomUpper, licZoomLower]), ("slack", [licSlack])] := rfl
    unfold getDuplicateLicenses jsObjectEntries
    rw [getAll_exDb4, hg]
    have hidx : ([("zoom", [licZoomUpper, licZoomLower]),
        ("slack", [licSlack])].filter (fun e => isArrayIndexKey e.1)) =
        ([] : List (String × List License)) := rfl
    rw [hidx, List.mergeSort_nil]
    rfl
  · have hg : groupBySoftware exDbNum.licenses =
        [("slack", [licSlackDup1, licSlackDup2]), ("2048", [licNum1, licNum2])] := rfl
    unfold getDuplicateLicenses jsObjectEntries
    rw [getAll_exDbNum, hg]
    have hidx : ([("slack", [licSlackDup1, licSlackDup2]),
        ("2048", [licNum1, licNum2])].filter (fun e => isArrayIndexKey e.1)) =
        [("2048", [licNum1, licNum2])] := rfl
    rw [hidx, List.mergeSort_singleton]
    rfl
  · have hg : groupBySoftware exDbCafe.licenses =
        [("café", [licCafeUpper, licCafeLower])] := rfl
    unfold getDuplicateLicenses jsObjectEntries
    rw [getAll_exDbCafe, hg]
    have hidx : ([("café", [licCafeUpper, licCafeLower])].filter
        (fun e => isArrayIndexKey e.1)) = ([] : List (String × List License)) := rfl
    rw [hidx, List.mergeSort_nil]
    rfl

/-- Claim C1, counterexample to the claim as stated: on a store with no
matching id, `updateLicense` does not fail with `NotFound` — the
`UPDATE ... RETURNING` destructuring yields no row (`none`) and the call
returns normally with the store unchanged (the PUT route then answers
200). -/
theorem updateLicense_c1_counterexample :
    updateLicense (Db.mk [] [] 0) 5 "missing" emptyPatch = (none, Db.mk [] [] 0) := rfl

/-- Claim C1 as amended: on a nonexistent id `updateLicense` updates
nothing and returns no row (rather than failing with `NotFound`); when
the id exists it returns the first matching row with exactly the
supplied fields applied and the updated timestamp set to now (the empty
patch changes only the updated timestamp, and the timestamp is bumped
even if the patch carries one). -/
theorem updateLicense_c1 (db : Db) (now : Int) (id : String) (p : LicensePatch) :
    ((∀ l ∈ db.licenses, ¬ l.id = id) → updateLicense db now id p = (none, db)) ∧
    (∀ pre l post, db.licenses = pre ++ l :: post → (∀ l' ∈ pre, ¬ l'.id = id) →
      l.id = id → (updateLicense db now id p).1 = some (applyPatch l p now)) ∧
    (∀ l, applyPatch l emptyPatch now = setUpdatedAt l now) ∧
    (∀ l, (applyPatch l p now).updatedAt = now) ∧
    (updateLicense exDb1 9 "W1" emptyPatch).1 = some (setUpdatedAt licW 9) := by
  refine ⟨?_, ?_, fun l => rfl, fun l => rfl, rfl⟩
  · intro hno
    unfold updateLicense
    have h1 : db.licenses.filter (fun l => l.id == id) = [] := by
      rw [List.filter_eq_nil_iff]
      intro l hl
      simpa using hno l hl
    have h2 : db.licenses.map (fun l => if l.id == id then applyPatch l p now else l) =
        db.licenses := by
      have hcong : ∀ l ∈ db.licenses,
          (if l.id == id then applyPatch l p now else l) = l := by
        intro l hl
        rw [if_neg (by simpa using hno l hl)]
      rw [List.map_congr_left hcong]
      simp
    rw [h1, h2]
    rfl
  · intro pre l post hsplit hpre hl
    unfold updateLicense
    rw [hsplit, List.filter_append]
    have h1 : pre.filter (fun l' => l'.id == id) = [] := by
      rw [List.filter_eq_nil_iff]
      intro l' hl'
      simpa using hpre l' hl'
    rw [h1, List.filter_cons_of_pos (by simpa using hl)]
    rfl

/-- Claim C8: `getOrCreateVendor(name)` returns the existing vendor when
one has the exact name, otherwise creates one with only the name
populated; a second call with the same name returns the same vendor,
changes nothing, and exactly one vendor with that name exists afterward
(given at most one existed before).  The spec's concurrent-invocation
clause is outside this sequential model. -/
theorem getOrCreateVendor_c8 (db : Db) (now now2 : Int) (name : String) :
    (getOrCreateVendor (getOrCreateVendor db now name).2 now2 name).1 =
      (getOrCreateVendor db now name).1 ∧
    (getOrCreateVendor (getOrCreateVendor db now name).2 now2 name).2 =
      (getOrCreateVendor db now name).2 ∧
    ((db.vendors.filter (fun v => v.name == name)).length ≤ 1 →
      ((getOrCreateVendor db now name).2.vendors.filter (fun v => v.name == name)).length = 1) ∧
    ((∀ v ∈ db.vendors, ¬ v.name = name) →
      (getOrCreateVendor db now name).1.name = name ∧
      (getOrCreateVendor db now name).1.website = none ∧
      (getOrCreateVendor db now name).1.contactEmail = none ∧
      (getOrCreateVendor db now name).2.vendors =
        db.vendors ++ [(getOrCreateVendor db now name).1]) := by
  cases hf : db.vendors.find? (fun v => v.name == name) with
  | some v =>
    have e1 : getOrCreateVendor db now name = (v, db) := by
      unfold getOrCreateVendor
      rw [hf]
    have e2 : getOrCreateVendor db now2 name = (v, db) := by
      unfold getOrCreateVendor
      rw [hf]
    rw [e1, e2]
    refine ⟨rfl, rfl, ?_, ?_⟩
    · intro hle
      have hpv := List.find?_some hf
      have hv : v ∈ db.vendors.filter (fun v' => v'.name == name) := by
        rw [List.mem_filter]
        exact ⟨List.mem_of_find?_eq_some hf, hpv⟩
      have hpos := List.length_pos_of_mem hv
      show (db.vendors.filter (fun v' => v'.name == name)).length = 1
      omega
    · intro hno
      exfalso
      have hpv := List.find?_some hf
      exact hno v (List.mem_of_find?_eq_some hf) (by simpa using hpv)
  | none =>
    have hnone : ∀ v ∈ db.vendors, ¬ (v.name == name) = true := List.find?_eq_none.mp hf
    have e1 : getOrCreateVendor db now name =
        (Vendor.mk (genId db.nextId) name none none now,
         Db.mk (db.vendors ++ [Vendor.mk (genId db.nextId) name none none now])
           db.licenses (db.nextId + 1)) := by
      unfold getOrCreateVendor
      rw [hf]
    have hfind2 : (db.vendors ++ [Vendor.mk (genId db.nextId) name none none now]).find?
        (fun v => v.name == name) = some (Vendor.mk (genId db.nextId) name none none now) := by
      rw [List.find?_append, hf]
      simp
    have e2 : getOrCreateVendor
        (Db.mk (db.vendors ++ [Vendor.mk (genId db.nextId) name none none now])
          db.licenses (db.nextId + 1)) now2 name =
        (Vendor.mk (genId db.nextId) name none none now,
         Db.mk (db.vendors ++ [Vendor.mk (genId db.nextId) name none none now])
           db.licenses (db.nextId + 1)) := by
      unfold getOrCreateVendor
      rw [show (Db.mk (db.vendors ++ [Vendor.mk (genId db.nextId) name none none now])
          db.licenses (db.nextId + 1)).vendors =
          db.vendors ++ [Vendor.mk (genId db.nextId) name none none now] from rfl]
      rw [hfind2]
    rw [e1, e2]
    refine ⟨rfl, rfl, ?_, ?_⟩
    · intro _
      have h1 : db.vendors.filter (fun v => v.name == name) = [] := by
        rw [List.filter_eq_nil_iff]
        exact hnone
      show ((db.vendors ++ [Vendor.mk (genId db.nextId) name none none now]).filter
        (fun v => v.name == name)).length = 1
      rw [List.filter_append, h1]
      simp
    · intro _
      exact ⟨rfl, rfl, rfl, rfl⟩

/-- Claim C9: `status` and `usedSeats` are server-assigned on creation —
two payloads that differ only in those fields produce the same outcome,
and every successfully created license has status "active" and 0 used
seats. -/
theorem createLicense_c9 (db : Db) (now : Int) (p1 p2 : LicensePayload) :
    (p2 = LicensePayload.mk p1.softwareName p1.vendorName p1.vendorId p1.teamId
        p1.licenseType p1.totalSeats p1.cost p1.billingFrequency p1.purchaseDate
        p1.expiryDate p1.contactPerson p1.description p2.status p2.usedSeats →
      createLicenseRoute db now p1 = createLicenseRoute db now p2) ∧
    (∀ l db2, createLicenseRoute db now p1 = some (l, db2) →
      l.status = some "active" ∧ l.usedSeats = some 0) ∧
    createLicenseRoute (Db.mk [] [] 0) 7 exPayloadA =
      createLicenseRoute (Db.mk [] [] 0) 7 exPayloadB ∧
    (createLicenseRoute (Db.mk [] [] 0) 7 exPayloadA).map
      (fun r => (r.1.status, r.1.usedSeats)) = some (some "active", some 0) := by
  refine ⟨?_, ?_, rfl, rfl⟩
  · intro h
    rw [h]
    rfl
  · intro l db2 h
    unfold createLicenseRoute at h
    cases hp : parseInsertLicense p1 with
    | none =>
      rw [hp] at h
      exact absurd h (by simp)
    | some data =>
      simp only [hp] at h
      have h2 := Option.some.inj h
      simp only [createLicense, Prod.mk.injEq] at h2
      obtain ⟨hl, -⟩ := h2
      rw [← hl]
      exact ⟨rfl, rfl⟩

/-- Claim C10: at GET /api/analytics/expiring, a `days` parameter that is
absent, non-numeric, or 0 is replaced by 30, and the route can never
invoke `getExpiringLicenses` with a zero-day window. -/
theorem expiringDays_c10 :
    expiringDaysParam none = 30 ∧
    expiringDaysParam (some "abc") = 30 ∧
    expiringDaysParam (some "0") = 30 ∧
    (∀ db today, expiringRoute db today (some "0") = getExpiringLicenses db today 30) ∧
    (∀ q : Option String, ¬ expiringDaysParam q = 0) := by
  refine ⟨rfl, rfl, rfl, fun db today => rfl, ?_⟩
  intro q
  cases q with
  | none => simp [expiringDaysParam]
  | some s =>
    have hdef : expiringDaysParam (some s) = (match jsParseInt s with
      | none => (30 : Int)
      | some v => if v = 0 then (30 : Int) else v) := rfl
    rw [hdef]
    cases hj : jsParseInt s with
    | none =>
      show ¬ (30 : Int) = 0
      omega
    | some v =>
      show ¬ (if v = 0 then (30 : Int) else v) = 0
      by_cases hv : v = 0
      · rw [if_pos hv]
        omega
      · rw [if_neg hv]
        exact hv

end LicenseManager
